import Mathlib

/-!
Verification of the NutriSync meal-plan core (`main.py`).

Shallow embedding conventions:
* Python `str` is Lean `String`; `str.lower` is modelled for the ASCII strings
  that occur here by mapping `Char.toLower`.
* Python `a in b` on strings is substring containment, modelled on the
  underlying character lists.
* Python floats are modelled as exact rationals, represented by the
  unnormalised fraction type `Frac` (numerator/denominator over `ℤ`; every
  denominator built below is positive); Python `round` is round-half-to-even
  on the exact value.  (Binary-float noise can flip a Python `round` at an
  exact `.5` boundary; none of the values the theorems below depend on sits
  at such a boundary.)
* Python dictionaries built from the JSON layer are modelled by `JValue`;
  fallible dynamic operations (`.get` on a non-dict, item assignment,
  iteration) return `Except PyErr`.
-/

namespace NutriSync

/-- Python `s.lower()` (ASCII). -/
def pyLower (s : String) : String := ⟨s.data.map Char.toLower⟩

/-- Python `a in b` for strings: `a` occurs as a contiguous substring of `b`. -/
def substrB (a b : String) : Bool := decide (List.IsInfix a.data b.data)

/-- ASCII whitespace, as stripped by Python `str.strip`. -/
def isSpaceChar (c : Char) : Bool :=
  c == ' ' || c == '\t' || c == '\n' || c == '\r' || c == '\x0b' || c == '\x0c'

/-- Python `s.strip()`: drop leading and trailing whitespace. -/
def pyStrip (s : String) : String :=
  ⟨((s.data.dropWhile isSpaceChar).reverse.dropWhile isSpaceChar).reverse⟩

/-- Exact rational value of a Python float expression, kept unnormalised
(numerator and denominator; every denominator constructed below is positive). -/
structure Frac where
  num : ℤ
  den : ℤ
deriving DecidableEq

/-- Embed an integer. -/
def Frac.ofInt (n : ℤ) : Frac := ⟨n, 1⟩

/-- Exact sum. -/
def Frac.add (a b : Frac) : Frac := ⟨a.num * b.den + b.num * a.den, a.den * b.den⟩

/-- Exact difference. -/
def Frac.sub (a b : Frac) : Frac := ⟨a.num * b.den - b.num * a.den, a.den * b.den⟩

/-- Exact product. -/
def Frac.mul (a b : Frac) : Frac := ⟨a.num * b.num, a.den * b.den⟩

/-- Exact division by a (positive) integer. -/
def Frac.divInt (a : Frac) (n : ℤ) : Frac := ⟨a.num, a.den * n⟩

/-- Python `round` on an exact rational with positive denominator:
round half to even. -/
def pyRound (q : Frac) : ℤ :=
  let f := q.num.fdiv q.den
  let r := q.num - f * q.den
  if 2*r < q.den then f
  else if 2*r > q.den then f + 1
  else if f % 2 = 0 then f else f + 1

/- ─── NUTRITION MATH (main.py lines 159-170) ─── -/

/-- `AMF` activity-multiplier table. -/
def AMF : List (String × Frac) :=
  [("sedentary", ⟨12, 10⟩), ("light", ⟨1375, 1000⟩), ("moderate", ⟨155, 100⟩),
   ("very", ⟨1725, 1000⟩), ("extra", ⟨19, 10⟩)]

/-- `bmr(w,h,a,g)`: Mifflin-St Jeor, male/m offset +5 else -161, rounded. -/
def bmr (w h : Frac) (a : ℤ) (g : String) : ℤ :=
  pyRound ((((Frac.ofInt 10).mul w).add ((⟨25, 4⟩ : Frac).mul h)).sub
      ((Frac.ofInt 5).mul (Frac.ofInt a)) |>.add
    (Frac.ofInt (if pyLower g ∈ ["male", "m"] then 5 else -161)))

/-- `tdee(b,act)`: activity factor looked up case-insensitively, default 1.55. -/
def tdee (b : ℤ) (act : String) : ℤ :=
  pyRound ((Frac.ofInt b).mul
    ((((AMF.find? (fun kv => kv.1 == pyLower act)).map (·.2)).getD ⟨155, 100⟩)))

/-- `target_cal(t,goal)`: -500 if goal contains "loss", +300 if "gain"/"muscle". -/
def target_cal (t : ℤ) (goal : String) : ℤ :=
  let g := pyLower goal
  if substrB "loss" g then t - 500
  else if substrB "gain" g || substrB "muscle" g then t + 300
  else t

/-- `fit_adj(t,steps,burned)`.  Python truthiness: `if steps:` skips `None` and `0`. -/
def fit_adj (t : ℤ) (steps burned : Option ℤ) : ℤ :=
  let t1 : ℤ :=
    match steps with
    | none => t
    | some s =>
        if s ≠ 0 then
          (if s < 4000 then pyRound ((Frac.ofInt t).mul ⟨9, 10⟩)
           else if s > 10000 then pyRound ((Frac.ofInt t).mul ⟨11, 10⟩) else t)
        else t
  match burned with
  | none => t1
  | some bn => if bn ≠ 0 ∧ bn > 0 then t1 + pyRound ((Frac.ofInt bn).mul ⟨3, 10⟩) else t1

/- ─── ALLERGEN DERIVATIVES (main.py lines 173-217) ─── -/

def ALLERGEN_DERIVATIVES : List (String × List String) :=
  [("Peanuts",
    ["peanut", "peanuts", "groundnut", "groundnuts", "monkey nut",
     "peanut butter", "peanut oil", "arachis oil", "beer nuts"]),
   ("Gluten",
    ["gluten", "wheat", "whole wheat", "maida", "atta", "roti", "chapati", "naan",
     "paratha", "bread", "whole grain bread", "pita", "tortilla", "barley", "rye",
     "semolina", "bulgur", "farro", "spelt", "kamut", "couscous", "pasta", "spaghetti",
     "noodles", "udon", "soy sauce", "flour", "wheat flour", "all-purpose flour",
     "breadcrumbs", "croutons", "malt", "malt vinegar", "seitan", "wheat bran",
     "wheat germ", "oats"]),
   ("Lactose",
    ["lactose", "milk", "dairy", "cream", "butter", "ghee", "paneer", "cheese", "cheddar",
     "mozzarella", "cottage cheese", "ricotta", "yogurt", "curd", "dahi", "buttermilk",
     "lassi", "whey", "casein", "ice cream", "condensed milk", "evaporated milk",
     "sour cream", "kefir", "custard", "milk powder", "skimmed milk", "full cream milk"]),
   ("Tree Nuts",
    ["tree nut", "tree nuts", "almond", "almonds", "walnut", "walnuts", "cashew", "cashews",
     "pistachio", "pistachios", "pecan", "pecans", "hazelnut", "hazelnuts", "macadamia",
     "brazil nut", "brazil nuts", "pine nut", "pine nuts", "chestnut", "chestnuts",
     "nut butter", "almond butter", "almond milk", "cashew milk", "mixed nuts",
     "praline", "marzipan", "nougat"]),
   ("Egg Allergy",
    ["egg", "eggs", "egg white", "egg yolk", "omelette", "omelet", "scrambled egg",
     "fried egg", "boiled egg", "mayonnaise", "mayo", "meringue", "albumin", "globulin",
     "lysozyme", "ovalbumin", "ovomucin", "ovomucoid", "egg noodles", "egg pasta",
     "custard", "hollandaise", "aioli"]),
   ("Shellfish",
    ["shellfish", "shrimp", "prawn", "crab", "lobster", "crayfish", "scallop",
     "clam", "oyster", "mussel", "barnacle", "squid", "octopus", "abalone"]),
   ("Soy",
    ["soy", "soya", "tofu", "tempeh", "edamame", "miso", "soy sauce", "tamari",
     "soy milk", "soy protein", "textured vegetable protein", "tvp", "soybean"]),
   ("Fish",
    ["fish", "salmon", "tuna", "cod", "tilapia", "sardine", "mackerel", "anchovy",
     "halibut", "trout", "bass", "snapper", "catfish", "herring", "mahi", "swordfish",
     "fish sauce", "fish oil", "fish stock"])]

/- ─── DIETARY EXCLUSIONS (main.py lines 220-242) ─── -/

def DIET_EXCLUSIONS : List (String × List String) :=
  [("Vegetarian",
    ["chicken", "beef", "mutton", "lamb", "pork", "fish", "seafood", "prawn", "shrimp",
     "crab", "lobster", "tuna", "salmon", "sardine", "anchovy", "meat", "meat broth",
     "gelatin", "lard", "bacon", "ham", "sausage", "salami", "pepperoni", "venison",
     "duck", "turkey", "quail", "veal", "bison", "goat meat"]),
   ("Vegan",
    ["chicken", "beef", "mutton", "lamb", "pork", "fish", "seafood", "prawn", "shrimp",
     "crab", "lobster", "tuna", "salmon", "sardine", "anchovy", "meat", "meat broth",
     "gelatin", "lard", "bacon", "ham", "sausage", "salami", "pepperoni", "venison",
     "duck", "turkey", "quail", "veal", "bison", "goat meat",
     "milk", "dairy", "cream", "butter", "ghee", "paneer", "cheese", "yogurt", "curd",
     "dahi", "buttermilk", "lassi", "whey", "casein", "milk powder", "egg", "eggs",
     "omelette", "mayonnaise", "custard", "honey", "beeswax", "shellac"]),
   ("Pescatarian",
    ["chicken", "beef", "mutton", "lamb", "pork", "gelatin", "lard", "bacon", "ham",
     "sausage", "salami", "pepperoni", "venison", "duck", "turkey", "quail", "veal",
     "bison", "goat meat", "meat broth"]),
   ("Non-Vegetarian", [])]

/- ─── SAFETY UTILITIES (main.py lines 416-446) ─── -/

/-- Derivative terms contributed by one declared allergy:
`key.lower() == allergy.lower() or allergy.lower() in key.lower()`. -/
def allergy_blocked (allergy : String) : List String :=
  ALLERGEN_DERIVATIVES.flatMap (fun kt =>
    if pyLower kt.1 == pyLower allergy || substrB (pyLower allergy) (pyLower kt.1)
    then kt.2.map pyLower else [])

/-- Terms contributed by the dietary style: first exactly-matching key
(case-insensitive, after strip) of `DIET_EXCLUSIONS`. -/
def style_blocked (dietary_style : String) : List String :=
  match DIET_EXCLUSIONS.find? (fun kt => pyLower kt.1 == pyLower (pyStrip dietary_style)) with
  | some kt => kt.2.map pyLower
  | none => []

/-- `build_blocklist(allergies, dietary_style)`.  The Python function collects
the terms in a `set`; we model the resulting collection as a de-duplicated
list (a Python `set` has no specified order, so only membership is meaningful
and only membership is used downstream). -/
def build_blocklist (allergies : List String) (dietary_style : String) : List String :=
  (allergies.flatMap allergy_blocked ++ style_blocked dietary_style).dedup

/-- `ingredient_is_safe(name, blocklist)`:
`not any(b in n or n in b for b in blocklist)` with `n = name.lower()`. -/
def ingredient_is_safe (name : String) (blocklist : List String) : Bool :=
  let n := pyLower name
  !(blocklist.any (fun b => substrB b n || substrB n b))

/- ─── PLAN REQUEST (main.py lines 76-87) ─── -/

/-- `PlanRequest` pydantic schema (floats as `Frac`, optional ints as
`Option ℤ`). -/
structure PlanRequest where
  age : ℤ
  gender : String
  height_cm : Frac
  weight_kg : Frac
  goal : String
  activity : String
  medical_conditions : List String := []
  dietary_style : String := ""
  proteins : List String := []
  allergies : List String := []
  cuisines : List String := []
  budget : String := "Moderate"
  steps_today : Option ℤ := none
  calories_burned : Option ℤ := none
  active_minutes : Option ℤ := none
deriving DecidableEq

/- ─── PROTEIN CONFLICT RESOLVER (main.py lines 448-480) ─── -/

structure ConflictResult where
  proteins : List String
  warnings : List String
deriving DecidableEq

/-- `animal_p` set in `enforce_dietary_protein_consistency`. -/
def animal_p : List String :=
  ["chicken", "mutton", "beef", "pork", "seafood", "duck", "turkey", "fish"]

/-- `vegan_exc` set in `enforce_dietary_protein_consistency`. -/
def vegan_exc : List String :=
  ["chicken", "mutton", "beef", "pork", "seafood", "duck", "turkey", "fish",
   "eggs", "dairy"]

/-- `land` set of the pescatarian branch. -/
def land_meats : List String :=
  ["chicken", "mutton", "beef", "pork", "duck", "turkey"]

/-- The dietary-style filtering phase of `enforce_dietary_protein_consistency`:
returns the surviving proteins and the style warnings. -/
def style_phase (style : String) (proteins : List String) : List String × List String :=
  if substrB "vegan" style then
    let removed := proteins.filter (fun p => vegan_exc.contains (pyLower p))
    (proteins.filter (fun p => !vegan_exc.contains (pyLower p)),
     if removed.isEmpty then []
     else ["Vegan diet: removed " ++ String.intercalate ", " removed])
  else if style == "vegetarian" then
    let removed := proteins.filter (fun p => animal_p.contains (pyLower p))
    (proteins.filter (fun p => !animal_p.contains (pyLower p)),
     if removed.isEmpty then []
     else ["Vegetarian diet: removed " ++ String.intercalate ", " removed])
  else if substrB "pescatarian" style then
    let removed := proteins.filter (fun p => land_meats.contains (pyLower p))
    (proteins.filter (fun p => !land_meats.contains (pyLower p)),
     if removed.isEmpty then []
     else ["Pescatarian: removed land meat " ++ String.intercalate ", " removed])
  else (proteins, [])

/-- `ALLERGEN_DERIVATIVES.get(allergy, [])`: exact (case-sensitive) key lookup. -/
def allergen_terms_of (allergy : String) : List String :=
  (((ALLERGEN_DERIVATIVES.find? (fun kt => kt.1 == allergy)).map (·.2)).getD [])

/-- One protein conflicts when some declared allergy has a derivative term that
occurs (lowercased) inside the protein name. -/
def allergy_conflict (allergies : List String) (p : String) : Bool :=
  allergies.any (fun a => (allergen_terms_of a).any (fun t => substrB (pyLower t) (pyLower p)))

/-- The `allergy_conflicts` list collected by the cross-check loop: the
style-surviving proteins that hit a derivative term. -/
def resolver_conflicts (req : PlanRequest) : List String :=
  (style_phase (pyLower req.dietary_style) req.proteins).1.filter
    (allergy_conflict req.allergies)

/-- `enforce_dietary_protein_consistency(req)`: dietary-style filter, then
allergy cross-check, collecting warnings. -/
def enforce_dietary_protein_consistency (req : PlanRequest) : ConflictResult :=
  { proteins := (style_phase (pyLower req.dietary_style) req.proteins).1.filter
      (fun p => !(resolver_conflicts req).contains p),
    warnings := (style_phase (pyLower req.dietary_style) req.proteins).2 ++
      (if (resolver_conflicts req).isEmpty then []
       else ["Allergy conflict removed: " ++
         String.intercalate ", " (resolver_conflicts req)]) }

/- ─── JSON VALUES AND PYTHON DYNAMIC SEMANTICS ─── -/

/-- JSON-shaped Python values as they appear after `json.loads` and in the
response dictionaries.  JSON numeric literals that occur in this subsystem
are integral, so numbers carry `ℤ`. -/
inductive JValue where
  | jnull : JValue
  | jbool : Bool → JValue
  | jnum : ℤ → JValue
  | jstr : String → JValue
  | jarr : List JValue → JValue
  | jobj : List (String × JValue) → JValue

/-- Python dynamic-type errors raised by the operations modelled here. -/
inductive PyErr where
  | attributeError : PyErr
  | typeError : PyErr
deriving DecidableEq

mutual

/-- Python `repr` for these values (string escaping inside `repr` is not
modelled; no string needing escapes occurs in this development). -/
def pyRepr : JValue → String
  | .jnull => "None"
  | .jbool true => "True"
  | .jbool false => "False"
  | .jnum n => toString n
  | .jstr s => "'" ++ s ++ "'"
  | .jarr xs => "[" ++ pyReprArr xs ++ "]"
  | .jobj kvs => "\x7b" ++ pyReprObj kvs ++ "\x7d"

/-- Comma-separated `repr`s of list elements. -/
def pyReprArr : List JValue → String
  | [] => ""
  | [x] => pyRepr x
  | x :: y :: xs => pyRepr x ++ ", " ++ pyReprArr (y :: xs)

/-- Comma-separated `'key': repr(value)` entries. -/
def pyReprObj : List (String × JValue) → String
  | [] => ""
  | [kv] => "'" ++ kv.1 ++ "': " ++ pyRepr kv.2
  | kv :: kv2 :: kvs => "'" ++ kv.1 ++ "': " ++ pyRepr kv.2 ++ ", " ++ pyReprObj (kv2 :: kvs)

end

/-- Python `str()` on these values. -/
def pyStr (v : JValue) : String :=
  match v with
  | .jstr s => s
  | _ => pyRepr v

/-- Python `d.get(k, default)`; raises `AttributeError` on non-dicts. -/
def pyGet (v : JValue) (k : String) (d : JValue) : Except PyErr JValue :=
  match v with
  | .jobj kvs => .ok ((((kvs.find? (fun kv => kv.1 == k)).map (·.2))).getD d)
  | _ => .error .attributeError

/-- Assign `k ↦ x` in an association list, replacing an existing key in place
or appending a new one (Python dict item assignment). -/
def setAssoc : List (String × JValue) → String → JValue → List (String × JValue)
  | [], k, x => [(k, x)]
  | kv :: rest, k, x => if kv.1 == k then (k, x) :: rest else kv :: setAssoc rest k x

/-- Python `d[k] = x`; raises `TypeError` on non-dicts. -/
def pySet (v : JValue) (k : String) (x : JValue) : Except PyErr JValue :=
  match v with
  | .jobj kvs => .ok (.jobj (setAssoc kvs k x))
  | _ => .error .typeError

/-- Python `for x in v`: lists yield elements, strings yield one-character
strings, dicts yield their keys; other values raise `TypeError`. -/
def pyIter (v : JValue) : Except PyErr (List JValue) :=
  match v with
  | .jarr xs => .ok xs
  | .jstr s => .ok (s.data.map (fun c => .jstr ⟨[c]⟩))
  | .jobj kvs => .ok (kvs.map (fun kv => .jstr kv.1))
  | _ => .error .typeError

/-- Python truthiness of these values. -/
def pyTruthy : JValue → Bool
  | .jnull => false
  | .jbool b => b
  | .jnum n => n != 0
  | .jstr s => !s.data.isEmpty
  | .jarr xs => !xs.isEmpty
  | .jobj kvs => !kvs.isEmpty

/- ─── PLAN SAFETY VALIDATOR (main.py lines 436-446) ─── -/

/-- Result dictionary of `validate_plan_safety`: `{"safe": ..., "violations": ...}`. -/
structure SafetyResult where
  safe : Bool
  violations : List JValue

/-- Violations of the ingredients of one meal, in order. -/
def validateIngs (blocklist : List String) (dayv mealv : JValue) :
    List JValue → Except PyErr (List JValue)
  | [] => .ok []
  | ing :: rest => do
    let inamev ←
      match ing with
      | .jobj _ => pyGet ing "name" (.jstr "")
      | _ => .ok (.jstr (pyStr ing))
    -- `ingredient_is_safe` immediately calls `.lower()` on the value,
    -- which raises `AttributeError` unless it is a string.
    let iname ←
      match inamev with
      | .jstr s => .ok s
      | _ => .error PyErr.attributeError
    let tail ← validateIngs blocklist dayv mealv rest
    if ingredient_is_safe iname blocklist then
      .ok tail
    else do
      let dv ← pyGet dayv "day" (.jstr "?")
      let mv ← pyGet mealv "name" (.jstr "?")
      .ok (.jobj [("day", dv), ("meal", mv), ("ingredient", .jstr iname)] :: tail)

/-- Violations of the meals of one day, in order. -/
def validateMeals (blocklist : List String) (dayv : JValue) :
    List JValue → Except PyErr (List JValue)
  | [] => .ok []
  | meal :: rest => do
    let iv ← pyGet meal "ingredients" (.jarr [])
    let ings ← pyIter iv
    let vs ← validateIngs blocklist dayv meal ings
    let tail ← validateMeals blocklist dayv rest
    .ok (vs ++ tail)

/-- Violations of all days, in order. -/
def validateDays (blocklist : List String) : List JValue → Except PyErr (List JValue)
  | [] => .ok []
  | day :: rest => do
    let mv ← pyGet day "meals" (.jarr [])
    let meals ← pyIter mv
    let vs ← validateMeals blocklist day meals
    let tail ← validateDays blocklist rest
    .ok (vs ++ tail)

/-- `validate_plan_safety(plan_days, blocklist)`.  The Python parameter is the
object fetched from the parsed JSON, iterated inside the function, so we take
the raw `JValue` here. -/
def validate_plan_safety (plan_days : JValue) (blocklist : List String) :
    Except PyErr SafetyResult := do
  let days ← pyIter plan_days
  let violations ← validateDays blocklist days
  .ok { safe := violations.length == 0, violations := violations }

/- ─── INGREDIENT HELPERS (main.py lines 770-826) ─── -/

/-- `_ING_CALS` density table (kcal per 100g); an ordered association list,
looked up by first key occurring as a substring of the ingredient name. -/
def «_ING_CALS» : List (String × ℤ) :=
  [("chicken breast", 165), ("chicken", 165), ("eggs", 155), ("egg", 155),
   ("prawns", 99), ("prawn", 99), ("fish fillet", 120), ("fish", 120), ("salmon", 208),
   ("tuna", 132), ("mutton", 258), ("beef", 250), ("lean beef strips", 250),
   ("pork tenderloin", 143), ("pork", 143), ("turkey breast", 135), ("turkey", 135),
   ("paneer", 265), ("tofu", 76), ("chickpeas", 164), ("moong dal", 105), ("masoor dal", 116),
   ("toor dal", 116), ("idli batter", 58), ("moong sprouts", 30),
   ("brown rice", 112), ("basmati rice", 121), ("white rice", 130), ("quinoa", 120),
   ("sweet potato", 86), ("cauliflower", 25), ("oats", 389),
   ("milk", 61), ("yogurt", 59), ("dahi", 61), ("curd", 61), ("butter", 717), ("ghee", 900),
   ("cheese", 402), ("cream", 340), ("whey", 352),
   ("olive oil", 884), ("coconut oil", 862), ("almonds", 579), ("flaxseeds", 534),
   ("spinach", 23), ("broccoli", 34), ("capsicum", 31), ("onion", 40), ("tomato", 18),
   ("green chilli", 40), ("garlic", 149), ("ginger", 80), ("coriander", 23),
   ("curry leaves", 108), ("tamarind", 239), ("lemon", 29), ("lime", 30),
   ("turmeric", 0), ("cumin", 0), ("pepper", 0), ("mustard seeds", 0),
   ("chaat masala", 0), ("spices", 0), ("herbs", 0), ("rosemary", 0),
   ("banana", 89), ("apple", 52), ("mixed greens", 20), ("cherry tomato", 18),
   ("roasted chana", 364),
   ("coconut milk", 230), ("mixed vegetables", 65)]

/-- `_ING_QTY` quantity table, looked up like `_ING_CALS`. -/
def «_ING_QTY» : List (String × String) :=
  [("chicken breast", "150g"), ("chicken", "150g"), ("eggs", "2 eggs"),
   ("prawns", "120g"), ("prawn", "120g"), ("fish fillet", "150g"), ("fish", "150g"),
   ("mutton", "120g"), ("beef", "120g"), ("lean beef strips", "120g"),
   ("pork tenderloin", "130g"), ("turkey breast", "130g"),
   ("paneer", "100g"), ("brown rice", "80g dry"), ("basmati rice", "80g dry"),
   ("quinoa", "70g dry"), ("sweet potato", "150g"), ("oats", "60g"),
   ("olive oil", "1 tbsp"), ("coconut oil", "1 tbsp"), ("butter", "10g"),
   ("almonds", "20g"), ("banana", "1 medium"), ("apple", "1 medium"),
   ("onion", "1 medium"), ("tomato", "1 medium"), ("garlic", "3 cloves"),
   ("spinach", "60g"), ("broccoli", "80g")]

/-- `_ing_qty(name)`: first table key contained in the lowercased name. -/
def «_ing_qty» (name : String) : String :=
  let n := pyLower name
  ((( «_ING_QTY».find? (fun kv => substrB kv.1 n)).map (·.2)).getD "as needed")

/-- `_ing_cal(name, meal_cal, n_ings)`: density-based per-ingredient estimate,
falling back to an equal split of the meal total. -/
def «_ing_cal» (name : String) (meal_cal : ℤ) (n_ings : ℕ) : ℤ :=
  let n := pyLower name
  match «_ING_CALS».find? (fun kv => substrB kv.1 n) with
  | some kv =>
      let v := kv.2
      if v > 500 then (pyRound (((Frac.ofInt v).mul ⟨15, 1000⟩).mul ⟨100, 1⟩)).fdiv 100 * 1
      else if v > 200 then pyRound ((Frac.ofInt v).mul ⟨10, 100⟩)
      else if v > 100 then pyRound ((Frac.ofInt v).mul ⟨15, 100⟩)
      else pyRound ((Frac.ofInt v).mul ⟨8, 100⟩)
  | none => pyRound ⟨meal_cal, (max n_ings 1 : ℕ)⟩

/- ─── FALLBACK PLAN DATA MODEL (dicts built by `make_fallback`) ─── -/

/-- One entry of a meal's `"ingredients"` list. -/
structure Ingredient where
  name : String
  quantity : String
  calories : ℤ
deriving DecidableEq

/-- The `"macronutrients"` dict. -/
structure Macros where
  protein : String
  carbohydrates : String
  fats : String
deriving DecidableEq

/-- The `"explainability"` dict. -/
structure Explain where
  why_selected : String
  nutritional_purpose : String
  goal_alignment : String
  allergy_confirmation : String
deriving DecidableEq

/-- The `"recipe"` dict. -/
structure Recipe where
  steps : List String
  cooking_time : String
  difficulty : String
deriving DecidableEq

/-- One meal dict produced by the fallback `meal(...)` helper. -/
structure Meal where
  type : String
  name : String
  cal : ℤ
  ingredients : List Ingredient
  macronutrients : Macros
  micronutrients_highlight : List String
  explainability : Explain
  recipe : Recipe
deriving DecidableEq

/-- One day dict of the fallback plan. -/
structure DayPlan where
  day : String
  total_day_calories : ℤ
  meals : List Meal
deriving DecidableEq

/-- Placeholder meal used only as the default of list `getD` projections. -/
def emptyMeal : Meal :=
  ⟨"", "", 0, [], ⟨"", "", ""⟩, [], ⟨"", "", "", ""⟩, ⟨[], "", ""⟩⟩

/-- Placeholder day used only as the default of list `getD` projections. -/
def emptyDay : DayPlan := ⟨"", 0, []⟩

/-- JSON image of an ingredient dict. -/
def Ingredient.toJson (i : Ingredient) : JValue :=
  .jobj [("name", .jstr i.name), ("quantity", .jstr i.quantity),
         ("calories", .jnum i.calories)]

/-- JSON image of a meal dict, with the key order of the source literal. -/
def Meal.toJson (m : Meal) : JValue :=
  .jobj [("type", .jstr m.type), ("name", .jstr m.name), ("cal", .jnum m.cal),
         ("ingredients", .jarr (m.ingredients.map Ingredient.toJson)),
         ("macronutrients", .jobj
           [("protein", .jstr m.macronutrients.protein),
            ("carbohydrates", .jstr m.macronutrients.carbohydrates),
            ("fats", .jstr m.macronutrients.fats)]),
         ("micronutrients_highlight", .jarr (m.micronutrients_highlight.map .jstr)),
         ("explainability", .jobj
           [("why_selected", .jstr m.explainability.why_selected),
            ("nutritional_purpose", .jstr m.explainability.nutritional_purpose),
            ("goal_alignment", .jstr m.explainability.goal_alignment),
            ("allergy_confirmation", .jstr m.explainability.allergy_confirmation)]),
         ("recipe", .jobj
           [("steps", .jarr (m.recipe.steps.map .jstr)),
            ("cooking_time", .jstr m.recipe.cooking_time),
            ("difficulty", .jstr m.recipe.difficulty)])]

/-- JSON image of a day dict. -/
def DayPlan.toJson (d : DayPlan) : JValue :=
  .jobj [("day", .jstr d.day), ("total_day_calories", .jnum d.total_day_calories),
         ("meals", .jarr (d.meals.map Meal.toJson))]

/- ─── SMART FALLBACK (main.py lines 829-1227) ─── -/

/-- The request-derived context captured by the closures inside
`make_fallback`: calorie splits, dietary flags, per-protein availability
flags, cuisine flags and the shared strings. -/
structure FbCtx where
  target : ℤ
  B : ℤ
  L : ℤ
  D : ℤ
  S : ℤ
  is_veg : Bool
  is_vegan : Bool
  is_pesc : Bool
  ck : Bool
  mt : Bool
  bf : Bool
  pk : Bool
  sf : Bool
  eg : Bool
  dk : Bool
  tk : Bool
  dairy_ok : Bool
  paneer_ok : Bool
  indian : Bool
  mediterranean : Bool
  asian : Bool
  western : Bool
  goal : String
  allergy_ok_msg : String
  blocklist : List String
deriving DecidableEq

/-- Build the `make_fallback` context from the arguments (the assignments at
the top of `make_fallback`). -/
def mkCtx (target : ℤ) (req : PlanRequest) (adjusted_proteins blocklist : List String) :
    FbCtx :=
  let style := pyLower req.dietary_style
  let is_veg := style == "vegetarian" || substrB "vegan" style
  let is_vegan := substrB "vegan" style
  let is_pesc := substrB "pescatarian" style
  let ap_lower := adjusted_proteins.map pyLower
  let ok := fun (i : String) => ingredient_is_safe i blocklist
  let p_ok := fun (p : String) => ap_lower.contains (pyLower p)
  let indian := req.cuisines.isEmpty || req.cuisines.contains "Indian"
  let dairy_ok := !is_vegan && ok "milk"
  { target := target
    B := pyRound ((Frac.ofInt target).mul ⟨25, 100⟩)
    L := pyRound ((Frac.ofInt target).mul ⟨35, 100⟩)
    D := pyRound ((Frac.ofInt target).mul ⟨30, 100⟩)
    S := pyRound ((Frac.ofInt target).mul ⟨5, 100⟩)
    is_veg := is_veg
    is_vegan := is_vegan
    is_pesc := is_pesc
    ck := !is_veg && p_ok "chicken" && ok "chicken"
    mt := !is_veg && p_ok "mutton" && ok "mutton"
    bf := !is_veg && p_ok "beef" && ok "beef"
    pk := !is_veg && p_ok "pork" && ok "pork"
    sf := (!is_veg || is_pesc) && p_ok "seafood" && ok "prawn"
    eg := !is_vegan && p_ok "eggs" && ok "egg"
    dk := !is_veg && p_ok "duck" && ok "duck"
    tk := !is_veg && p_ok "turkey" && ok "turkey"
    dairy_ok := dairy_ok
    paneer_ok := dairy_ok && ok "paneer"
    indian := indian
    mediterranean := req.cuisines.isEmpty || req.cuisines.contains "Mediterranean"
    asian := req.cuisines.isEmpty || req.cuisines.contains "Asian" ||
      req.cuisines.contains "Chinese" || req.cuisines.contains "Japanese"
    western := req.cuisines.isEmpty || !indian
    goal := req.goal
    allergy_ok_msg := "✓ Confirmed safe — no " ++
      (if req.allergies.isEmpty then "none" else String.intercalate ", " req.allergies) ++
      " present"
    blocklist := blocklist }

/-- The `meal(...)` helper: filter the candidate ingredients through
`ingredient_is_safe`, substituting a generic safe default when the filter
leaves nothing, and assemble the meal dict. -/
def fb_meal (ctx : FbCtx) (type_ name : String) (cal : ℤ) (ingr : List String)
    (prot carb fat : String) (micros : List String)
    (why purpose align : String) (steps : List String) (time_ diff : String) : Meal :=
  let safe0 := ingr.filter (fun i => ingredient_is_safe i ctx.blocklist)
  let safe := if safe0.isEmpty then ["Brown rice", "Lentils", "Olive oil"] else safe0
  { type := type_
    name := name
    cal := cal
    ingredients := safe.map (fun i => ⟨i, «_ing_qty» i, «_ing_cal» i cal safe.length⟩)
    macronutrients := ⟨prot, carb, fat⟩
    micronutrients_highlight := micros
    explainability := ⟨why, purpose, align, ctx.allergy_ok_msg⟩
    recipe := ⟨steps, time_, diff⟩ }

/-- The breakfast pool `bfast(day_idx)`. -/
def fb_bfast (ctx : FbCtx) (day_idx : ℕ) : Meal :=
  let i := day_idx % 7
  if i == 0 && ctx.eg then
    fb_meal ctx "Breakfast" "Masala scrambled eggs" ctx.B
      ["Eggs", "Onion", "Tomato", "Green chilli", "Turmeric", "Coriander", "Olive oil"]
      "18g" "10g" "14g" ["B12", "Choline", "Selenium"]
      "High-protein egg breakfast" "Complete amino acids and choline"
      ("Protein-forward start supporting " ++ ctx.goal)
      ["Beat eggs with turmeric and salt", "Sauté onion, tomato, chilli 3 mins",
       "Pour eggs into pan", "Stir until just set", "Garnish coriander"] "10 mins" "Easy"
  else if i == 1 && ctx.ck then
    fb_meal ctx "Breakfast"
      (if !ctx.indian then "Chicken omelette" else "Chicken keema omelette") ctx.B
      ["Eggs", "Chicken", "Onion", "Capsicum", "Garlic", "Olive oil", "Pepper"]
      "28g" "8g" "15g" ["B12", "Protein", "Selenium"]
      "High-protein chicken & egg breakfast" "Two complete protein sources"
      ("Power breakfast for " ++ ctx.goal)
      ["Mince or shred cooked chicken", "Beat eggs with salt and pepper",
       "Sauté garlic, onion 2 mins", "Add chicken, cook 2 mins",
       "Pour eggs over, fold omelette", "Serve with toast or salad"] "15 mins" "Easy"
  else if i == 2 && !ctx.indian && ctx.eg then
    fb_meal ctx "Breakfast" "Avocado egg toast" ctx.B
      ["Eggs", "Mixed greens", "Tomato", "Olive oil", "Garlic", "Pepper"]
      "16g" "28g" "12g" ["B12", "Healthy Fats", "Fiber"]
      "Western-style high-fibre breakfast" "Healthy fats with complete protein"
      ("Balanced morning meal for " ++ ctx.goal)
      ["Toast whole grain bread", "Mash vegetables with olive oil and seasoning",
       "Fry or poach eggs", "Layer on toast", "Season with pepper"] "10 mins" "Easy"
  else if i == 2 && ctx.dairy_ok && ctx.indian then
    fb_meal ctx "Breakfast" "Idli with sambar" ctx.B
      ["Idli batter", "Toor dal", "Tomato", "Tamarind", "Curry leaves", "Mustard seeds",
       "Turmeric"]
      "10g" "42g" "3g" ["Iron", "B Vitamins", "Probiotics"]
      "Fermented South Indian breakfast" "Probiotics + plant protein"
      ("Light digestible start for " ++ ctx.goal)
      ["Steam idlis 12-15 mins", "Boil dal with tomato and tamarind",
       "Prepare mustard-curry leaf tadka", "Add to sambar, simmer 2 mins",
       "Serve with coconut chutney"] "25 mins" "Easy"
  else if i == 3 && ctx.sf && ctx.eg then
    fb_meal ctx "Breakfast" "Prawn & egg scramble" ctx.B
      ["Prawns", "Eggs", "Capsicum", "Garlic", "Olive oil", "Pepper"]
      "26g" "8g" "12g" ["B12", "Omega-3", "Iodine"]
      "High-protein seafood breakfast" "Complete protein from two sources"
      ("Powerful start for " ++ ctx.goal)
      ["Sauté prawns with garlic 2 mins", "Beat eggs, pour over prawns",
       "Add capsicum and stir", "Cook on low until just set",
       "Season with pepper and serve"] "15 mins" "Easy"
  else if i == 4 && ctx.dairy_ok && !ctx.indian then
    fb_meal ctx "Breakfast" "Greek yogurt & oats bowl" ctx.B
      ["Oats", "Yogurt", "Banana", "Almonds", "Flaxseeds"]
      "14g" "52g" "8g" ["Calcium", "Fiber", "Omega-3"]
      "High-fiber Western breakfast" "Probiotic yogurt with complex carbs"
      ("Sustained energy for " ++ ctx.goal)
      ["Cook oats with water or milk 5 mins", "Slice banana",
       "Top oats with yogurt", "Add banana, almonds, flaxseeds",
       "Drizzle honey if desired"] "10 mins" "Easy"
  else if i == 4 && ctx.indian then
    fb_meal ctx "Breakfast" "Poha with peanuts" ctx.B
      ["Poha", "Onion", "Tomato", "Peanuts", "Mustard seeds", "Curry leaves", "Turmeric"]
      "8g" "48g" "6g" ["Iron", "B Vitamins", "Fiber"]
      "Light flattened rice breakfast" "Iron-rich quick breakfast"
      ("Light energising start for " ++ ctx.goal)
      ["Rinse poha and drain", "Sauté mustard seeds, curry leaves",
       "Add onion, tomato, turmeric", "Mix in poha and peanuts",
       "Cook 3 mins, garnish coriander"] "15 mins" "Easy"
  else if i == 5 && ctx.eg && !ctx.indian then
    fb_meal ctx "Breakfast" "Veggie egg muffins" ctx.B
      ["Eggs", "Spinach", "Capsicum", "Onion", "Cheese", "Olive oil", "Pepper"]
      "20g" "10g" "14g" ["B12", "Calcium", "Iron"]
      "Meal-prep friendly protein breakfast" "Portable protein-packed breakfast"
      ("Macro-controlled breakfast for " ++ ctx.goal)
      ["Preheat oven 180°C", "Whisk eggs with salt and pepper",
       "Chop and sauté vegetables 3 mins", "Fill muffin tin with veg then egg mix",
       "Bake 18-20 mins until set"] "25 mins" "Medium"
  else if i == 5 && ctx.indian then
    fb_meal ctx "Breakfast" "Upma with vegetables" ctx.B
      ["Semolina", "Onion", "Tomato", "Carrot", "Peas", "Mustard seeds", "Ghee"]
      "9g" "44g" "7g" ["B Vitamins", "Fiber", "Iron"]
      "Traditional Indian semolina breakfast" "Complex carbs with vegetables"
      ("Light filling breakfast for " ++ ctx.goal)
      ["Dry roast semolina golden, set aside", "Heat ghee, add mustard seeds",
       "Sauté onion, carrot, peas 4 mins", "Add water, bring to boil",
       "Stir in semolina, cook 3 mins"] "20 mins" "Easy"
  else if i == 6 && ctx.ck && !ctx.indian then
    fb_meal ctx "Breakfast" "Chicken & spinach wrap" ctx.B
      ["Chicken", "Spinach", "Tomato", "Yogurt", "Whole wheat wrap", "Garlic", "Olive oil"]
      "30g" "32g" "10g" ["Protein", "Iron", "Calcium"]
      "High-protein wrap breakfast" "Lean protein with iron-rich greens"
      ("Filling power breakfast for " ++ ctx.goal)
      ["Season and grill chicken strips", "Warm wrap briefly",
       "Mix yogurt with garlic as sauce", "Layer chicken, spinach, tomato",
       "Roll and serve warm"] "20 mins" "Easy"
  else
    fb_meal ctx "Breakfast" "Moong dal chilla" ctx.B
      ["Moong dal", "Onion", "Tomato", "Green chilli", "Cumin", "Turmeric", "Coconut oil"]
      "14g" "38g" "6g" ["Iron", "Folate", "Fiber"]
      "High-protein savoury pancake" "Plant protein with complex carbs"
      ("Sustained morning energy for " ++ ctx.goal)
      ["Soak moong dal 2 hours, drain and grind smooth",
       "Add onion, tomato, chilli, spices", "Heat pan, pour thin batter",
       "Cook 3 mins until bubbles form", "Flip, cook 2 mins more"] "20 mins" "Easy"

/-- The weighted lunch candidate list (chicken twice). -/
def fb_lunch_opts (ctx : FbCtx) : List String :=
  if ctx.is_pesc && ctx.sf then
    ["seafood", "seafood", "seafood", "seafood", "seafood"]
  else
    (if ctx.ck then ["chicken", "chicken"] else []) ++
    (if ctx.mt then ["mutton"] else []) ++
    (if ctx.bf then ["beef"] else []) ++
    (if ctx.pk then ["pork"] else []) ++
    (if ctx.sf then ["seafood"] else []) ++
    (if ctx.tk then ["turkey"] else []) ++
    (if ctx.dk then ["duck"] else [])

/-- The lunch pool `lunch(day_idx)`. -/
def fb_lunch (ctx : FbCtx) (day_idx : ℕ) : Meal :=
  let opts := fb_lunch_opts ctx
  if opts.isEmpty then
    if ctx.paneer_ok then
      fb_meal ctx "Lunch" "Paneer tikka rice bowl" ctx.L
        ["Paneer", "Brown rice", "Capsicum", "Onion", "Tomato", "Spices", "Olive oil"]
        "24g" "52g" "12g" ["Calcium", "Protein", "Iron"]
        "High-calcium vegetarian protein lunch"
        "Paneer provides complete protein and calcium"
        ("Satisfying midday meal for " ++ ctx.goal)
        ["Cube paneer, marinate with spices 20 mins", "Grill or air-fry 10 mins",
         "Cook brown rice separately", "Sauté capsicum and onion 4 mins",
         "Assemble bowl with rice, paneer and veg"] "35 mins" "Medium"
    else
      fb_meal ctx "Lunch" "Chickpea curry with quinoa" ctx.L
        ["Chickpeas", "Quinoa", "Tomato", "Onion", "Garlic", "Spices", "Coconut oil"]
        "18g" "58g" "9g" ["Iron", "Folate", "Fiber"]
        "Complete plant protein combination"
        "Chickpeas + quinoa = all essential amino acids"
        ("High-fibre satisfying lunch for " ++ ctx.goal)
        ["Cook quinoa 15 mins", "Sauté onion and garlic 5 mins",
         "Add tomato and spices 5 mins",
         "Add chickpeas, simmer 10 mins", "Serve over quinoa"] "35 mins" "Medium"
  else
    let chosen := opts.getD (day_idx % opts.length) ""
    if chosen == "chicken" then
      fb_meal ctx "Lunch" "Grilled chicken & brown rice bowl" ctx.L
        ["Chicken breast", "Brown rice", "Spinach", "Broccoli", "Olive oil", "Garlic",
         "Lemon"]
        "38g" "48g" "10g" ["Protein", "Iron", "Vitamin C"]
        "Lean protein powerhouse lunch" "High bioavailable protein with complex carbs"
        ("Optimal macro split for " ++ ctx.goal)
        ["Marinate chicken with garlic, lemon, herbs 15 mins", "Grill 7 mins each side",
         "Cook brown rice 20 mins", "Wilt spinach in pan 2 mins", "Steam broccoli 5 mins",
         "Slice chicken over rice with veg"] "35 mins" "Medium"
    else if chosen == "mutton" then
      fb_meal ctx "Lunch" "Mutton curry with basmati rice" ctx.L
        ["Mutton", "Basmati rice", "Onion", "Tomato", "Ginger", "Garlic", "Whole spices",
         "Coriander"]
        "30g" "55g" "16g" ["Iron", "Zinc", "B12"]
        "Iron-rich traditional mutton curry" "High iron and zinc for energy and immunity"
        ("Flavourful satisfying lunch for " ++ ctx.goal)
        ["Marinate mutton with spices 30 mins", "Sauté onion golden, add ginger-garlic",
         "Add tomato, cook until oil separates", "Add mutton, pressure cook 4 whistles",
         "Simmer uncovered 10 mins to thicken", "Serve over basmati with coriander"]
        "60 mins" "Advanced"
    else if chosen == "beef" then
      fb_meal ctx "Lunch" "Lean beef stir-fry with quinoa" ctx.L
        ["Lean beef strips", "Quinoa", "Mixed vegetables", "Garlic", "Ginger", "Olive oil"]
        "35g" "42g" "12g" ["Iron", "Zinc", "B12"]
        "High-iron lean beef with complete protein grain"
        "Beef provides haem iron for energy"
        ("Power lunch supporting " ++ ctx.goal)
        ["Cook quinoa 15 mins", "Slice beef thin against grain",
         "Sear beef on high heat 3 mins",
         "Add garlic, ginger and vegetables, stir-fry 4 mins",
         "Season with herbs, serve over quinoa"] "25 mins" "Medium"
    else if chosen == "pork" then
      fb_meal ctx "Lunch" "Pork tenderloin with sweet potato" ctx.L
        ["Pork tenderloin", "Sweet potato", "Spinach", "Garlic", "Olive oil", "Rosemary"]
        "32g" "38g" "10g" ["B1", "Zinc", "Potassium"]
        "Lean pork with nutrient-rich sweet potato" "Thiamine-rich pork with complex carbs"
        ("Balanced lunch macro split for " ++ ctx.goal)
        ["Season pork with rosemary and garlic", "Sear in oven-proof pan 3 mins each side",
         "Roast 200°C for 18 mins", "Boil sweet potato 15 mins", "Wilt spinach in pan",
         "Slice pork and serve with sweet potato and spinach"] "35 mins" "Medium"
    else if chosen == "turkey" then
      fb_meal ctx "Lunch" "Turkey and vegetable bowl" ctx.L
        ["Turkey breast", "Brown rice", "Broccoli", "Carrot", "Garlic", "Olive oil",
         "Herbs"]
        "36g" "45g" "8g" ["Protein", "B6", "Zinc"]
        "Lean turkey — lowest-fat poultry option"
        "Tryptophan in turkey supports mood and recovery"
        ("High-protein lunch for " ++ ctx.goal)
        ["Season turkey with garlic, herbs", "Grill or bake 200°C 22 mins",
         "Cook brown rice",
         "Steam broccoli and carrot 5 mins", "Slice turkey, assemble bowl"]
        "30 mins" "Easy"
    else
      fb_meal ctx "Lunch" "Grilled fish & quinoa salad" ctx.L
        ["Fish fillet", "Quinoa", "Mixed greens", "Cherry tomato", "Olive oil", "Lemon",
         "Herbs"]
        "34g" "38g" "10g" ["Omega-3", "Iodine", "Vitamin D"]
        "Omega-3 rich lunch for heart and brain health" "Fatty acids reduce inflammation"
        ("Anti-inflammatory lunch supporting " ++ ctx.goal)
        ["Cook quinoa 15 mins, cool", "Season fish with herbs and lemon",
         "Pan-grill fish 4 mins per side", "Toss greens and tomato with olive oil",
         "Plate fish over quinoa with salad"] "25 mins" "Easy"

/-- The dinner candidate list (seafood first, chicken twice, no turkey). -/
def fb_dinner_opts (ctx : FbCtx) : List String :=
  if ctx.is_pesc && ctx.sf then
    ["seafood", "seafood", "seafood", "seafood", "seafood"]
  else
    (if ctx.sf then ["seafood"] else []) ++
    (if ctx.ck then ["chicken", "chicken"] else []) ++
    (if ctx.mt then ["mutton"] else []) ++
    (if ctx.bf then ["beef"] else []) ++
    (if ctx.pk then ["pork"] else []) ++
    (if ctx.dk then ["duck"] else [])

/-- The dinner pool `dinner(day_idx)`. -/
def fb_dinner (ctx : FbCtx) (day_idx : ℕ) : Meal :=
  let opts := fb_dinner_opts ctx
  if opts.isEmpty then
    if ctx.paneer_ok then
      fb_meal ctx "Dinner" "Palak paneer with cauliflower rice" ctx.D
        ["Paneer", "Spinach", "Onion", "Tomato", "Garlic", "Spices", "Cauliflower"]
        "22g" "20g" "14g" ["Calcium", "Iron", "Vitamin K"]
        "Iron and calcium-rich vegetarian dinner"
        "Spinach iron + paneer calcium for recovery"
        ("Nutrient-dense low-carb dinner for " ++ ctx.goal)
        ["Blanch spinach, blend smooth", "Sauté onion, garlic, tomato with spices",
         "Add spinach puree, simmer 5 mins", "Add paneer cubes, cook 5 mins",
         "Grate cauliflower, microwave 4 mins as rice substitute",
         "Serve palak paneer over cauli-rice"] "30 mins" "Medium"
    else
      fb_meal ctx "Dinner" "Masoor dal with brown rice" ctx.D
        ["Masoor dal", "Brown rice", "Spinach", "Garlic", "Tomato", "Cumin", "Turmeric",
         "Coconut oil"]
        "18g" "35g" "7g" ["Iron", "Folate", "Fiber"]
        "Comforting iron-rich lentil dinner" "Plant iron and fibre for overnight recovery"
        ("Light satisfying dinner for " ++ ctx.goal)
        ["Cook masoor dal with turmeric 15 mins", "Sauté garlic and tomato",
         "Add wilted spinach", "Combine with dal, simmer 5 mins",
         "Prepare brown rice separately", "Serve dal over rice"] "25 mins" "Easy"
  else
    let chosen := opts.getD (day_idx % opts.length) ""
    if chosen == "seafood" then
      fb_meal ctx "Dinner" "Prawn masala with brown rice" ctx.D
        ["Prawns", "Brown rice", "Tomato", "Onion", "Garlic", "Ginger", "Coconut milk",
         "Spices"]
        "30g" "45g" "10g" ["Omega-3", "Iodine", "Selenium"]
        "Omega-3 rich light dinner"
        "Selenium and iodine support thyroid and metabolism"
        ("Anti-inflammatory dinner for " ++ ctx.goal)
        ["Cook brown rice 20 mins", "Sauté onion, garlic, ginger 5 mins",
         "Add tomato and spices, cook 5 mins", "Add prawns, cook 4 mins",
         "Pour coconut milk, simmer 3 mins", "Serve over rice, garnish coriander"]
        "30 mins" "Medium"
    else if chosen == "chicken" then
      fb_meal ctx "Dinner" "Chicken tikka (light) with cauliflower rice" ctx.D
        ["Chicken breast", "Cauliflower", "Tomato", "Onion", "Garlic", "Spices",
         "Coconut milk"]
        "32g" "22g" "12g" ["Protein", "B6", "Vitamin C"]
        "High-protein lower-carb dinner" "Lean chicken with cruciferous veg for recovery"
        ("Evening meal optimised for " ++ ctx.goal)
        ["Cube chicken, marinate with spices 20 mins", "Grill chicken 8-10 mins",
         "Make tomato-onion sauce, add coconut milk", "Add chicken, simmer 5 mins",
         "Grate cauliflower, microwave 4 mins", "Serve curry over cauli-rice"]
        "35 mins" "Medium"
    else if chosen == "mutton" then
      fb_meal ctx "Dinner" "Mutton keema with peas" ctx.D
        ["Mutton mince", "Green peas", "Onion", "Tomato", "Ginger", "Garlic", "Spices",
         "Olive oil"]
        "28g" "18g" "14g" ["Iron", "Zinc", "B12"]
        "Iron-dense mince for overnight muscle repair"
        "High zinc supports recovery and immunity"
        ("Protein-rich dinner for " ++ ctx.goal)
        ["Sauté onion until golden", "Add ginger-garlic paste 2 mins",
         "Add mutton mince, cook on high 5 mins",
         "Add tomato and spices, cook 10 mins", "Add peas, simmer 5 mins",
         "Garnish coriander"] "30 mins" "Medium"
    else if chosen == "beef" then
      fb_meal ctx "Dinner" "Grilled lean beef with roasted veg" ctx.D
        ["Lean beef", "Zucchini", "Capsicum", "Carrot", "Olive oil", "Garlic", "Herbs"]
        "30g" "20g" "14g" ["Iron", "Zinc", "B12"]
        "Haem iron powerhouse dinner" "Highest bioavailable iron for energy"
        ("Recovery dinner for " ++ ctx.goal)
        ["Form beef patties with herbs and seasoning", "Grill 4 mins per side",
         "Toss veg in olive oil and garlic", "Roast 220°C 20 mins",
         "Rest beef 3 mins before serving", "Plate over roasted veg"] "30 mins" "Medium"
    else if chosen == "pork" then
      fb_meal ctx "Dinner" "Stir-fried pork with vegetables" ctx.D
        ["Pork loin", "Broccoli", "Carrot", "Capsicum", "Garlic", "Ginger", "Sesame oil"]
        "28g" "18g" "12g" ["B1", "Zinc", "Vitamin C"]
        "Lean pork stir-fry — quick and nutrient-dense"
        "Thiamine-rich pork for energy metabolism"
        ("Light, high-protein dinner for " ++ ctx.goal)
        ["Slice pork thin", "Heat sesame oil on high", "Sear pork 4 mins",
         "Add garlic and ginger 1 min", "Add vegetables, stir-fry 4 mins",
         "Season and serve immediately"] "20 mins" "Easy"
    else
      fb_meal ctx "Dinner" "Roasted duck breast with sweet potato" ctx.D
        ["Duck breast", "Sweet potato", "Asparagus", "Garlic", "Rosemary", "Orange zest"]
        "28g" "30g" "18g" ["Iron", "B12", "Vitamin A"]
        "Rich iron and B12 from duck, complex carbs from sweet potato"
        "Duck fat contains heart-healthy monounsaturated fats"
        ("Indulgent yet balanced dinner for " ++ ctx.goal)
        ["Score duck skin, season with rosemary and orange zest",
         "Sear skin-side 6 mins to render fat",
         "Flip and roast 200°C 12 mins", "Roast sweet potato alongside 25 mins",
         "Steam asparagus 3 mins", "Rest duck 5 mins, slice and serve"]
        "40 mins" "Advanced"

/-- The snack pool list (chana appended only when safe). -/
def fb_snacks (ctx : FbCtx) :
    List (List String × String × String × String × List String) :=
  [(["Apple", "Orange", "Pomegranate"], "2g", "28g", "0.5g", ["Vitamin C", "Potassium"]),
   (["Moong sprouts", "Tomato", "Lemon"], "7g", "15g", "0.5g", ["Folate", "Vitamin C"]),
   (["Banana", "Flaxseeds"], "3g", "27g", "2g", ["Potassium", "Omega-3"])] ++
  (if ingredient_is_safe "roasted chana" ctx.blocklist then
    [(["Roasted chana", "Lemon", "Chaat masala"], "6g", "18g", "4g",
      ["Magnesium", "Fiber"])]
   else [])

/-- `snack(day_idx, time_of_day)`. -/
def fb_snack (ctx : FbCtx) (day_idx : ℕ) (time_of_day : String) : Meal :=
  let sl := fb_snacks ctx
  let s := sl.getD (day_idx % sl.length) ([], "", "", "", [])
  let ingr := s.1
  fb_meal ctx time_of_day
    (if ingr.headD "" == "Apple" then "Fresh fruit bowl"
     else if ingr.headD "" == "Moong sprouts" then "Sprouts chaat"
     else if ingr.headD "" == "Banana" then "Banana & flaxseeds"
     else "Roasted chana chaat")
    ctx.S ingr s.2.1 s.2.2.1 s.2.2.2.1 s.2.2.2.2
    "Light snack prevents energy dips" "Micronutrients and fibre"
    ("Aligned with " ++ ctx.goal)
    ["Prepare ingredients", "Mix or chop", "Season lightly", "Serve fresh"]
    "5 mins" "Easy"

/-- Python `history[-2:]`. -/
def last2 (l : List String) : List String := l.drop (l.length - 2)

/-- The bounded non-repetition retry loop: try `tries` day-index offsets, pick
the first candidate whose name is not among the previous two choices,
otherwise fall back to the unshifted candidate. -/
def pickWith (gen : ℕ → Meal) (tries i : ℕ) (hist : List String) : Meal :=
  match (List.range tries).find? (fun a => !((last2 hist).contains (gen ((i + a) % 7)).name)) with
  | some a => gen ((i + a) % 7)
  | none => gen i

/-- The day-assembly loop of `make_fallback`, carrying the per-slot name
histories. -/
def fb_build (ctx : FbCtx) (i : ℕ) :
    List String → List String → List String → List String → List DayPlan
  | [], _, _, _ => []
  | day :: rest, bh, lh, dh =>
    let bf_meal := pickWith (fb_bfast ctx) 5 i bh
    let lc_meal := pickWith (fb_lunch ctx) 7 i lh
    let dn_meal := pickWith (fb_dinner ctx) 7 i dh
    let snack1 := fb_snack ctx ((i * 2) % (fb_snacks ctx).length) "Mid-Morning"
    let snack2 := fb_snack ctx ((i * 2 + 1) % (fb_snacks ctx).length) "Evening"
    { day := day
      total_day_calories :=
        bf_meal.cal + snack1.cal + lc_meal.cal + snack2.cal + dn_meal.cal
      meals := [bf_meal, snack1, lc_meal, snack2, dn_meal] } ::
    fb_build ctx (i + 1) rest (bh ++ [bf_meal.name]) (lh ++ [lc_meal.name])
      (dh ++ [dn_meal.name])

/-- The week's day labels. -/
def weekDays : List String :=
  ["Monday", "Tuesday", "Wednesday", "Thursday", "Friday", "Saturday", "Sunday"]

/-- `make_fallback(target, req, adjusted_proteins, blocklist)`. -/
def make_fallback (target : ℤ) (req : PlanRequest)
    (adjusted_proteins blocklist : List String) : List DayPlan :=
  fb_build (mkCtx target req adjusted_proteins blocklist) 0 weekDays [] [] []

/- ─── GENERATE PLAN ENDPOINT (main.py lines 1230-1301) ─── -/

/-- Outcome of the external generation channel as observed by
`generate_plan`.  The Gemini HTTP client, the markdown code-fence stripping
and `json.loads` are Python stdlib / network collaborators outside this
subsystem, so the orchestrator is parameterised over their combined result:
either the API key is unset (the external branch is skipped), or the call
raised, or a text was returned whose post-strip parse either failed with
`json.JSONDecodeError` or produced a JSON value. -/
inductive ExtOutcome where
  | noKey : ExtOutcome
  | callError : ExtOutcome
  | output : Except Unit JValue → ExtOutcome

/-- Target calories computed at the top of `generate_plan`. -/
def gp_tc (req : PlanRequest) : ℤ :=
  fit_adj (target_cal (tdee (bmr req.weight_kg req.height_cm req.age req.gender)
    req.activity) req.goal) req.steps_today req.calories_burned

/-- The blocklist computed by `generate_plan`. -/
def gp_blocklist (req : PlanRequest) : List String :=
  build_blocklist req.allergies req.dietary_style

/-- The allergy-adjusted proteins computed by `generate_plan`. -/
def gp_adjusted (req : PlanRequest) : List String :=
  (enforce_dietary_protein_consistency req).proteins

/-- The conflict warnings computed by `generate_plan`. -/
def gp_warnings (req : PlanRequest) : List String :=
  (enforce_dietary_protein_consistency req).warnings

/-- The response dictionary built by the `if not plan_data:` fallback block. -/
def gp_fallback_response (req : PlanRequest) : JValue :=
  let b := bmr req.weight_kg req.height_cm req.age req.gender
  let t := tdee b req.activity
  let tc := gp_tc req
  let blocklist := gp_blocklist req
  .jobj [("bmr", .jnum b), ("tdee", .jnum t), ("target_calories", .jnum tc),
         ("safety_check", .jobj
           [("allergy_verified", .jbool true),
            ("medical_condition_verified", .jbool true),
            ("conflicts_found", .jbool false),
            ("notes", .jstr ("Fallback — " ++ toString blocklist.length ++
              " allergen terms enforced."))]),
         ("voice_summary", .jstr ("Your " ++ req.goal ++
           " plan is ready! Targeting " ++ toString tc ++ " calories per day.")),
         ("plan", .jarr ((make_fallback tc req (gp_adjusted req) blocklist).map
           DayPlan.toJson))]

/-- The body of the `try` block after a successful parse: validate the
external plan and attach the safety check, substituting the fallback plan on
violations.  A raised `PyErr` propagates to the enclosing `except`; every
mutation of the parsed dict happens after the last fallible step, so on an
error the dict is returned to the handler unmodified. -/
def gp_try (req : PlanRequest) (j : JValue) : Except PyErr JValue := do
  let pv ← pyGet j "plan" (.jarr [])
  let safety ← validate_plan_safety pv (gp_blocklist req)
  if !safety.safe then do
    let j1 ← pySet j "plan" (.jarr ((make_fallback (gp_tc req) req (gp_adjusted req)
      (gp_blocklist req)).map DayPlan.toJson))
    pySet j1 "safety_check" (.jobj
      [("allergy_verified", .jbool true), ("medical_condition_verified", .jbool true),
       ("conflicts_found", .jbool false),
       ("notes", .jstr "AI plan had allergen hits — safe fallback applied.")])
  else
    pySet j "safety_check" (.jobj
      [("allergy_verified", .jbool true), ("medical_condition_verified", .jbool true),
       ("conflicts_found", .jbool false),
       ("notes", .jstr ("All 7 days verified safe. " ++
         toString (gp_blocklist req).length ++ " terms blocked."))])

/-- `generate_plan` endpoint body (database persistence, which the core does
not read back, is omitted).  Returns the response value or the uncaught
`PyErr` surfaced by the final item assignments. -/
def generate_plan (ext : ExtOutcome) (req : PlanRequest) : Except PyErr JValue :=
  let pd_used : Option JValue × Bool :=
    match ext with
    | .noKey => (none, false)
    | .callError => (none, false)
    | .output (.error _) => (none, false)
    | .output (.ok j) =>
        (some (match gp_try req j with
               | .ok v => v
               | .error _ => j), true)
  let pd : JValue :=
    match pd_used.1 with
    | none => gp_fallback_response req
    | some v => if pyTruthy v then v else gp_fallback_response req
  do
    let r1 ← pySet pd "used_ai" (.jbool pd_used.2)
    pySet r1 "conflict_warnings" (.jarr ((gp_warnings req).map .jstr))

/-- Projection used in theorem statements: fetch key `k` of a successful
response (`none` when the computation errored or the value is not a dict;
`some .jnull` when the key is absent). -/
def getKey (r : Except PyErr JValue) (k : String) : Option JValue :=
  r.toOption.bind (fun v => (pyGet v k .jnull).toOption)

/- ─── LEMMAS: BLOCKLIST MEMBERSHIP ─── -/

lemma mem_if_nil {c : Prop} [Decidable c] {l : List String} {t : String} :
    t ∈ (if c then l else []) ↔ c ∧ t ∈ l := by
  by_cases h : c <;> simp [h]

lemma mem_allergy_blocked {t a : String} :
    t ∈ allergy_blocked a ↔
      ∃ kt ∈ ALLERGEN_DERIVATIVES,
        (pyLower kt.1 = pyLower a ∨ substrB (pyLower a) (pyLower kt.1) = true) ∧
        t ∈ kt.2.map pyLower := by
  unfold allergy_blocked
  simp only [List.mem_flatMap, Bool.or_eq_true, beq_iff_eq, mem_if_nil]

lemma diet_keys_inj :
    ∀ kt ∈ DIET_EXCLUSIONS, ∀ kt' ∈ DIET_EXCLUSIONS,
      pyLower kt.1 = pyLower kt'.1 → kt = kt' := by decide

lemma mem_style_blocked {s t : String} :
    t ∈ style_blocked s ↔
      ∃ kt ∈ DIET_EXCLUSIONS,
        pyLower kt.1 = pyLower (pyStrip s) ∧ t ∈ kt.2.map pyLower := by
  unfold style_blocked
  rcases h : DIET_EXCLUSIONS.find?
      (fun kt => pyLower kt.1 == pyLower (pyStrip s)) with _ | kt
  · rw [h]
    rw [List.find?_eq_none] at h
    constructor
    · intro ht
      exact absurd ht (List.not_mem_nil t)
    · rintro ⟨kt', hm', he', -⟩
      exact absurd (by simpa using he') (by simpa using h kt' hm')
  · rw [h]
    have hmem := List.mem_of_find?_eq_some h
    have hpred : pyLower kt.1 = pyLower (pyStrip s) := by
      simpa using List.find?_some h
    constructor
    · intro ht
      exact ⟨kt, hmem, hpred, ht⟩
    · rintro ⟨kt', hm', he', ht'⟩
      have hk : kt' = kt := diet_keys_inj kt' hm' kt hmem (he'.trans hpred.symm)
      exact hk ▸ ht'

lemma mem_build_blocklist {A : List String} {s t : String} :
    t ∈ build_blocklist A s ↔
      (∃ a ∈ A, t ∈ allergy_blocked a) ∨ t ∈ style_blocked s := by
  unfold build_blocklist
  simp [List.mem_dedup, List.mem_append, List.mem_flatMap]

/- ─── C4 ─── -/

/-- C4 (counterexample): the claim says substring containment *in either
direction* triggers an allergen-key match; but for the declared allergy
"Peanuts allergy" — whose lowercase form strictly contains the key
"Peanuts" — `build_blocklist` produces the empty blocklist, because the code
only tests the allergy-inside-key direction. -/
theorem C4_counterexample :
    substrB (pyLower "Peanuts") (pyLower "Peanuts allergy") = true ∧
    build_blocklist ["Peanuts allergy"] "" = [] := by decide

/-- C4 (amended): a term is in the blocklist iff it is a lowercased derivative
term of an allergen key matched by some declared allergy — matched
case-insensitively by exact equality or by the *allergy occurring inside the
key* (one direction only) — or a lowercased excluded term of the
exactly-matched dietary style; unmatched allergies contribute nothing and
raise no error. -/
theorem C4_blocklist_matching (A : List String) (s t : String) :
    t ∈ build_blocklist A s ↔
      (∃ a ∈ A, ∃ kt ∈ ALLERGEN_DERIVATIVES,
        (pyLower kt.1 = pyLower a ∨ substrB (pyLower a) (pyLower kt.1) = true) ∧
        t ∈ kt.2.map pyLower) ∨
      (∃ kt ∈ DIET_EXCLUSIONS,
        pyLower kt.1 = pyLower (pyStrip s) ∧ t ∈ kt.2.map pyLower) := by
  rw [mem_build_blocklist]
  constructor
  · rintro (⟨a, ha, ht⟩ | hs)
    · exact Or.inl ⟨a, ha, mem_allergy_blocked.mp ht⟩
    · exact Or.inr (mem_style_blocked.mp hs)
  · rintro (⟨a, ha, ht⟩ | hs)
    · exact Or.inl ⟨a, ha, mem_allergy_blocked.mpr ht⟩
    · exact Or.inr (mem_style_blocked.mpr hs)

/-- C4 witness: instantiation at allergy "egg" (an inexact spelling matching
the key "Egg Allergy" by containment) and style "vegan". -/
theorem C4_blocklist_matching_witness :
    "omelet" ∈ build_blocklist ["egg"] "vegan" :=
  (C4_blocklist_matching ["egg"] "vegan" "omelet").mpr
    (Or.inl ⟨"egg", by decide, ("Egg Allergy",
      ["egg", "eggs", "egg white", "egg yolk", "omelette", "omelet", "scrambled egg",
       "fried egg", "boiled egg", "mayonnaise", "mayo", "meringue", "albumin", "globulin",
       "lysozyme", "ovalbumin", "ovomucin", "ovomucoid", "egg noodles", "egg pasta",
       "custard", "hollandaise", "aioli"]), by decide, by decide, by decide⟩)

/- ─── C10 ─── -/

/-- C10: `build_blocklist` is monotone in the declared-allergy list — every
term blocked for allergy list `A` is still blocked for any list `A'`
containing all of `A`, for every dietary style. -/
theorem C10_blocklist_monotone (style : String) (A A' : List String)
    (hsub : ∀ x ∈ A, x ∈ A') :
    ∀ t ∈ build_blocklist A style, t ∈ build_blocklist A' style := by
  intro t ht
  rcases mem_build_blocklist.mp ht with ⟨a, ha, hta⟩ | hs
  · exact mem_build_blocklist.mpr (Or.inl ⟨a, hsub a ha, hta⟩)
  · exact mem_build_blocklist.mpr (Or.inr hs)

/-- C10 witness: adding the allergy "Fish" keeps "peanut" blocked. -/
theorem C10_blocklist_monotone_witness :
    "peanut" ∈ build_blocklist ["Peanuts", "Fish"] "" :=
  C10_blocklist_monotone "" ["Peanuts"] ["Peanuts", "Fish"] (by decide) "peanut"
    (by decide)

/- ─── C3 ─── -/

lemma is_safe_iff {name : String} {bl : List String} :
    ingredient_is_safe name bl = true ↔
      ∀ b ∈ bl, substrB b (pyLower name) = false ∧ substrB (pyLower name) b = false := by
  unfold ingredient_is_safe
  simp only [Bool.not_eq_true', List.any_eq_false, Bool.or_eq_true, not_or,
    Bool.not_eq_true]

lemma is_safe_false_of_mem {b name : String} {bl : List String} (hb : b ∈ bl)
    (hs : substrB b (pyLower name) = true) : ingredient_is_safe name bl = false := by
  unfold ingredient_is_safe
  simp only [Bool.not_eq_false', List.any_eq_true]
  exact ⟨b, hb, by simp [hs]⟩

/-- C3: `ingredient_is_safe` is exactly bidirectional substring freedom
against the blocklist; and for allergies `["Peanuts"]` with *any* dietary
style, the blocklist contains "peanut butter" and "Peanut butter toast" is
rejected. -/
theorem C3_is_safe_characterisation (name : String) (bl : List String) (style : String) :
    (ingredient_is_safe name bl = true ↔
      ∀ b ∈ bl, substrB b (pyLower name) = false ∧ substrB (pyLower name) b = false) ∧
    "peanut butter" ∈ build_blocklist ["Peanuts"] style ∧
    ingredient_is_safe "Peanut butter toast" (build_blocklist ["Peanuts"] style) = false := by
  have hpb : "peanut butter" ∈ build_blocklist ["Peanuts"] style :=
    mem_build_blocklist.mpr (Or.inl ⟨"Peanuts", by decide, by
      rw [mem_allergy_blocked]
      exact ⟨("Peanuts",
        ["peanut", "peanuts", "groundnut", "groundnuts", "monkey nut",
         "peanut butter", "peanut oil", "arachis oil", "beer nuts"]),
        by decide, Or.inl rfl, by decide⟩⟩)
  refine ⟨is_safe_iff, hpb, ?_⟩
  exact is_safe_false_of_mem hpb (by decide)

/-- C3 witness: instantiation at a concrete ingredient, blocklist and style. -/
theorem C3_is_safe_characterisation_witness :
    (ingredient_is_safe "Peanut butter toast" ["peanut"] = true ↔
      ∀ b ∈ ["peanut"], substrB b (pyLower "Peanut butter toast") = false ∧
        substrB (pyLower "Peanut butter toast") b = false) ∧
    "peanut butter" ∈ build_blocklist ["Peanuts"] "Vegan" ∧
    ingredient_is_safe "Peanut butter toast" (build_blocklist ["Peanuts"] "Vegan") = false :=
  C3_is_safe_characterisation "Peanut butter toast" ["peanut"] "Vegan"

/- ─── C9 ─── -/

/-- C9 (counterexample): the spec's worked example claims
`bmr(70,175,30,"male") = 1724`, but the Mifflin-St Jeor value is
`round(10*70 + 6.25*175 - 5*30 + 5) = round(1648.75) = 1649`. -/
theorem C9_counterexample :
    bmr ⟨70, 1⟩ ⟨175, 1⟩ 30 "male" = 1649 ∧ (1649 : ℤ) ≠ 1724 := by decide

/-- C9 (amended): `bmr(70,175,30,"male") = 1649` (not 1724); the remaining two
equations of the worked example hold exactly as stated:
`tdee(1724,"moderate") = 2672` and `target_calories(2672,"Weight Loss") = 2172`. -/
theorem C9_nutrition_chain :
    bmr ⟨70, 1⟩ ⟨175, 1⟩ 30 "male" = 1649 ∧
    tdee 1724 "moderate" = 2672 ∧
    target_cal 2672 "Weight Loss" = 2172 := by decide

/- ─── LEMMAS: FALLBACK GENERATORS ─── -/

lemma pickWith_eq_gen (gen : ℕ → Meal) (tries i : ℕ) (hist : List String) :
    ∃ k, pickWith gen tries i hist = gen k := by
  unfold pickWith
  rcases h : (List.range tries).find?
      (fun a => !((last2 hist).contains (gen ((i + a) % 7)).name)) with _ | a
  · exact ⟨i, rfl⟩
  · exact ⟨(i + a) % 7, rfl⟩

lemma pickWith_prop {P : Meal → Prop} {gen : ℕ → Meal} (h : ∀ j, P (gen j))
    (tries i : ℕ) (hist : List String) : P (pickWith gen tries i hist) := by
  obtain ⟨k, hk⟩ := pickWith_eq_gen gen tries i hist
  rw [hk]
  exact h k

lemma fb_meal_type (ctx : FbCtx) (t n : String) (c : ℤ) (ingr : List String)
    (p cb f : String) (m : List String) (w pu al : String) (st : List String)
    (ti d : String) : (fb_meal ctx t n c ingr p cb f m w pu al st ti d).type = t := rfl

lemma fb_bfast_type (ctx : FbCtx) (j : ℕ) : (fb_bfast ctx j).type = "Breakfast" := by
  unfold fb_bfast
  dsimp only
  simp only [apply_ite Meal.type, fb_meal_type, ite_self]

lemma fb_lunch_type (ctx : FbCtx) (j : ℕ) : (fb_lunch ctx j).type = "Lunch" := by
  unfold fb_lunch
  dsimp only
  simp only [apply_ite Meal.type, fb_meal_type, ite_self]

lemma fb_dinner_type (ctx : FbCtx) (j : ℕ) : (fb_dinner ctx j).type = "Dinner" := by
  unfold fb_dinner
  dsimp only
  simp only [apply_ite Meal.type, fb_meal_type, ite_self]

lemma fb_snack_type (ctx : FbCtx) (j : ℕ) (tod : String) :
    (fb_snack ctx j tod).type = tod := rfl

lemma pickWith_type {gen : ℕ → Meal} {T : String} (h : ∀ j, (gen j).type = T)
    (tries i : ℕ) (hist : List String) : (pickWith gen tries i hist).type = T :=
  pickWith_prop (P := fun m => m.type = T) h tries i hist

/- ─── C6 ─── -/

lemma fb_build_struct (ctx : FbCtx) :
    ∀ (ds : List String) (i : ℕ) (bh lh dh : List String),
      ((fb_build ctx i ds bh lh dh).map DayPlan.day = ds) ∧
      ∀ d ∈ fb_build ctx i ds bh lh dh,
        d.meals.map Meal.type =
          ["Breakfast", "Mid-Morning", "Lunch", "Evening", "Dinner"] ∧
        d.total_day_calories = (d.meals.map Meal.cal).sum := by
  intro ds
  induction ds with
  | nil => intro i bh lh dh; simp [fb_build]
  | cons day rest ih =>
      intro i bh lh dh
      rw [fb_build]
      constructor
      · simp only [List.map_cons]
        rw [(ih (i+1) _ _ _).1]
      · intro d hd
        rcases List.mem_cons.mp hd with hfst | hrest
        · subst hfst
          constructor
          · simp only [List.map_cons, List.map_nil]
            rw [pickWith_type (fb_bfast_type ctx) 5 i bh,
                pickWith_type (fb_lunch_type ctx) 7 i lh,
                pickWith_type (fb_dinner_type ctx) 7 i dh,
                fb_snack_type, fb_snack_type]
          · simp only [List.map_cons, List.map_nil, List.sum_cons, List.sum_nil]
            ring
        · exact (ih (i+1) _ _ _).2 d hrest

/-- C6: for every target, request, allowed-protein list (including the empty
list) and blocklist, the fallback synthesizer — a total function — returns
exactly 7 day entries labelled Monday through Sunday in order, each carrying
exactly the 5 required meal types in order, with each day's
`total_day_calories` equal to the literal sum of its five meals' `cal`
values. -/
theorem C6_fallback_shape (target : ℤ) (req : PlanRequest)
    (adjusted blocklist : List String) :
    (make_fallback target req adjusted blocklist).length = 7 ∧
    (make_fallback target req adjusted blocklist).map DayPlan.day = weekDays ∧
    (make_fallback target req adjusted blocklist).map
        (fun d => d.meals.map Meal.type) =
      List.replicate 7 ["Breakfast", "Mid-Morning", "Lunch", "Evening", "Dinner"] ∧
    (make_fallback target req adjusted blocklist).all
      (fun d => d.total_day_calories == (d.meals.map Meal.cal).sum) = true := by
  obtain ⟨hdays, hmeals⟩ :=
    fb_build_struct (mkCtx target req adjusted blocklist) weekDays 0 [] [] []
  have hlen : (make_fallback target req adjusted blocklist).length = 7 := by
    have := congrArg List.length hdays
    simpa [make_fallback] using this
  refine ⟨hlen, hdays, ?_, ?_⟩
  · rw [List.eq_replicate_iff]
    refine ⟨by simpa using hlen, ?_⟩
    intro b hb
    obtain ⟨d, hd, hdb⟩ := List.mem_map.mp hb
    rw [← hdb]
    exact (hmeals d hd).1
  · rw [List.all_eq_true]
    intro d hd
    exact beq_iff_eq.mpr (hmeals d hd).2

/- ─── LEMMAS: FALLBACK INGREDIENT SAFETY (C1) ─── -/

/-- Every term any blocklist can contain: the lowercased union of all
allergen derivative lists and all dietary exclusion lists. -/
def allBlockTerms : List String :=
  (ALLERGEN_DERIVATIVES.flatMap (·.2) ++ DIET_EXCLUSIONS.flatMap (·.2)).map pyLower

lemma mem_allBlockTerms_of_blocklist {A : List String} {s b : String}
    (hb : b ∈ build_blocklist A s) : b ∈ allBlockTerms := by
  unfold allBlockTerms
  rcases mem_build_blocklist.mp hb with ⟨a, _, hba⟩ | hs
  · obtain ⟨kt, hkt, _, hmem⟩ := mem_allergy_blocked.mp hba
    obtain ⟨x, hx, rfl⟩ := List.mem_map.mp hmem
    exact List.mem_map.mpr ⟨x, List.mem_append.mpr
      (Or.inl (List.mem_flatMap.mpr ⟨kt, hkt, hx⟩)), rfl⟩
  · obtain ⟨kt, hkt, _, hmem⟩ := mem_style_blocked.mp hs
    obtain ⟨x, hx, rfl⟩ := List.mem_map.mp hmem
    exact List.mem_map.mpr ⟨x, List.mem_append.mpr
      (Or.inr (List.mem_flatMap.mpr ⟨kt, hkt, hx⟩)), rfl⟩

lemma is_safe_anti {n : String} {bl bl2 : List String} (hsub : ∀ b ∈ bl, b ∈ bl2)
    (h : ingredient_is_safe n bl2 = true) : ingredient_is_safe n bl = true := by
  rw [is_safe_iff] at h ⊢
  intro b hb
  exact h b (hsub b hb)

/-- The generic default ingredient set is safe against a blocklist. -/
def defaultsSafe (bl : List String) : Prop :=
  ingredient_is_safe "Brown rice" bl = true ∧
  ingredient_is_safe "Lentils" bl = true ∧
  ingredient_is_safe "Olive oil" bl = true

set_option maxRecDepth 100000 in
lemma defaultsSafe_allBlockTerms : defaultsSafe allBlockTerms := by
  refine ⟨?_, ?_, ?_⟩ <;> decide

lemma defaultsSafe_blocklist (A : List String) (s : String) :
    defaultsSafe (build_blocklist A s) :=
  ⟨is_safe_anti (fun _ hb => mem_allBlockTerms_of_blocklist hb)
     defaultsSafe_allBlockTerms.1,
   is_safe_anti (fun _ hb => mem_allBlockTerms_of_blocklist hb)
     defaultsSafe_allBlockTerms.2.1,
   is_safe_anti (fun _ hb => mem_allBlockTerms_of_blocklist hb)
     defaultsSafe_allBlockTerms.2.2⟩

/-- Every ingredient attached to the meal passes `ingredient_is_safe`. -/
def MealIngredientsSafe (bl : List String) (m : Meal) : Prop :=
  ∀ ing ∈ m.ingredients, ingredient_is_safe ing.name bl = true

lemma ite_prop {c : Prop} [Decidable c] {A B : Prop} (hA : A) (hB : B) :
    if c then A else B := by
  by_cases h : c
  · rwa [if_pos h]
  · rwa [if_neg h]

lemma fb_meal_safe {ctx : FbCtx} (hD : defaultsSafe ctx.blocklist)
    {t n : String} {c : ℤ} {ingr : List String} {p cb f : String} {m : List String}
    {w pu al : String} {st : List String} {ti d : String} :
    MealIngredientsSafe ctx.blocklist (fb_meal ctx t n c ingr p cb f m w pu al st ti d) := by
  intro ing hing
  unfold fb_meal at hing
  dsimp only at hing
  obtain ⟨x, hx, rfl⟩ := List.mem_map.mp hing
  by_cases he : (ingr.filter (fun i => ingredient_is_safe i ctx.blocklist)).isEmpty
  · rw [if_pos he] at hx
    have hx3 : x = "Brown rice" ∨ x = "Lentils" ∨ x = "Olive oil" := by simpa using hx
    rcases hx3 with rfl | rfl | rfl
    · exact hD.1
    · exact hD.2.1
    · exact hD.2.2
  · rw [if_neg he] at hx
    exact (List.mem_filter.mp hx).2

lemma fb_bfast_safe {ctx : FbCtx} (hD : defaultsSafe ctx.blocklist) (j : ℕ) :
    MealIngredientsSafe ctx.blocklist (fb_bfast ctx j) := by
  unfold fb_bfast
  dsimp only
  simp only [apply_ite (MealIngredientsSafe ctx.blocklist)]
  repeat first
    | exact fb_meal_safe hD
    | apply ite_prop

lemma fb_lunch_safe {ctx : FbCtx} (hD : defaultsSafe ctx.blocklist) (j : ℕ) :
    MealIngredientsSafe ctx.blocklist (fb_lunch ctx j) := by
  unfold fb_lunch
  dsimp only
  simp only [apply_ite (MealIngredientsSafe ctx.blocklist)]
  repeat first
    | exact fb_meal_safe hD
    | apply ite_prop

lemma fb_dinner_safe {ctx : FbCtx} (hD : defaultsSafe ctx.blocklist) (j : ℕ) :
    MealIngredientsSafe ctx.blocklist (fb_dinner ctx j) := by
  unfold fb_dinner
  dsimp only
  simp only [apply_ite (MealIngredientsSafe ctx.blocklist)]
  repeat first
    | exact fb_meal_safe hD
    | apply ite_prop

lemma fb_snack_safe {ctx : FbCtx} (hD : defaultsSafe ctx.blocklist) (j : ℕ)
    (tod : String) : MealIngredientsSafe ctx.blocklist (fb_snack ctx j tod) := by
  unfold fb_snack
  dsimp only
  exact fb_meal_safe hD

lemma fb_build_safe {ctx : FbCtx} (hD : defaultsSafe ctx.blocklist) :
    ∀ (ds : List String) (i : ℕ) (bh lh dh : List String),
      ∀ d ∈ fb_build ctx i ds bh lh dh, ∀ m ∈ d.meals,
        MealIngredientsSafe ctx.blocklist m := by
  intro ds
  induction ds with
  | nil => intro i bh lh dh d hd; exact absurd hd (List.not_mem_nil d)
  | cons day rest ih =>
      intro i bh lh dh d hd
      rw [fb_build] at hd
      rcases List.mem_cons.mp hd with hfst | hrest
      · subst hfst
        intro m hm
        have hm5 : m = pickWith (fb_bfast ctx) 5 i bh ∨
            m = fb_snack ctx ((i * 2) % (fb_snacks ctx).length) "Mid-Morning" ∨
            m = pickWith (fb_lunch ctx) 7 i lh ∨
            m = fb_snack ctx ((i * 2 + 1) % (fb_snacks ctx).length) "Evening" ∨
            m = pickWith (fb_dinner ctx) 7 i dh := by simpa using hm
        rcases hm5 with rfl | rfl | rfl | rfl | rfl
        · exact pickWith_prop (P := MealIngredientsSafe ctx.blocklist)
            (fb_bfast_safe hD) 5 i bh
        · exact fb_snack_safe hD _ _
        · exact pickWith_prop (P := MealIngredientsSafe ctx.blocklist)
            (fb_lunch_safe hD) 7 i lh
        · exact fb_snack_safe hD _ _
        · exact pickWith_prop (P := MealIngredientsSafe ctx.blocklist)
            (fb_dinner_safe hD) 7 i dh
      · exact ih (i+1) _ _ _ d hrest

/- ─── LEMMAS: VALIDATOR ON STRUCTURED PLANS (C1) ─── -/

lemma validateIngs_safe (bl : List String) (dayv mealv : JValue)
    (ings : List Ingredient) (h : ∀ i ∈ ings, ingredient_is_safe i.name bl = true) :
    validateIngs bl dayv mealv (ings.map Ingredient.toJson) = .ok [] := by
  induction ings with
  | nil => rfl
  | cons i rest ih =>
      have hi : ingredient_is_safe i.name bl = true := h i (List.mem_cons_self i rest)
      have hrest := ih (fun x hx => h x (List.mem_cons_of_mem i hx))
      have step : validateIngs bl dayv mealv (List.map Ingredient.toJson (i :: rest)) =
          (validateIngs bl dayv mealv (List.map Ingredient.toJson rest)).bind
            (fun tail => if ingredient_is_safe i.name bl then Except.ok tail
             else do
               let dv ← pyGet dayv "day" (.jstr "?")
               let mv ← pyGet mealv "name" (.jstr "?")
               Except.ok (.jobj [("day", dv), ("meal", mv),
                 ("ingredient", .jstr i.name)] :: tail)) := rfl
      rw [step, hrest]
      show (if ingredient_is_safe i.name bl then Except.ok [] else _) = _
      rw [hi]
      rfl

lemma validateMeals_safe (bl : List String) (dayv : JValue) (ms : List Meal)
    (h : ∀ m ∈ ms, MealIngredientsSafe bl m) :
    validateMeals bl dayv (ms.map Meal.toJson) = .ok [] := by
  induction ms with
  | nil => rfl
  | cons m rest ih =>
      have hrest := ih (fun x hx => h x (List.mem_cons_of_mem m hx))
      have step : validateMeals bl dayv (List.map Meal.toJson (m :: rest)) =
          (validateIngs bl dayv (Meal.toJson m)
            (m.ingredients.map Ingredient.toJson)).bind
            (fun vs => (validateMeals bl dayv (List.map Meal.toJson rest)).bind
              (fun tail => Except.ok (vs ++ tail))) := rfl
      rw [step, validateIngs_safe bl dayv (Meal.toJson m) m.ingredients
        (h m (List.mem_cons_self m rest)), hrest]
      rfl

lemma validateDays_safe (bl : List String) (dsp : List DayPlan)
    (h : ∀ d ∈ dsp, ∀ m ∈ d.meals, MealIngredientsSafe bl m) :
    validateDays bl (dsp.map DayPlan.toJson) = .ok [] := by
  induction dsp with
  | nil => rfl
  | cons d rest ih =>
      have hrest := ih (fun x hx => h x (List.mem_cons_of_mem d hx))
      have step : validateDays bl (List.map DayPlan.toJson (d :: rest)) =
          (validateMeals bl (DayPlan.toJson d) (d.meals.map Meal.toJson)).bind
            (fun vs => (validateDays bl (List.map DayPlan.toJson rest)).bind
              (fun tail => Except.ok (vs ++ tail))) := rfl
      rw [step, validateMeals_safe bl (DayPlan.toJson d) d.meals
        (h d (List.mem_cons_self d rest)), hrest]
      rfl

/- ─── C1 ─── -/

/-- C1: for every target, request and allowed-protein list, synthesizing the
fallback plan with the blocklist compiled from the request's allergies and
dietary style and re-validating it with the same blocklist yields
`safe = true` with an empty violations list: every ingredient attached to
every meal — including the generic default set substituted when a candidate
list filters empty — passes `ingredient_is_safe`. -/
theorem C1_fallback_validates_safe (target : ℤ) (req : PlanRequest)
    (adjusted : List String) :
    validate_plan_safety
      (.jarr ((make_fallback target req adjusted
        (build_blocklist req.allergies req.dietary_style)).map DayPlan.toJson))
      (build_blocklist req.allergies req.dietary_style) =
      .ok { safe := true, violations := [] } := by
  have hD : defaultsSafe (mkCtx target req adjusted
      (build_blocklist req.allergies req.dietary_style)).blocklist :=
    defaultsSafe_blocklist req.allergies req.dietary_style
  have hsafe := fb_build_safe hD weekDays 0 [] [] []
  have hdays := validateDays_safe (build_blocklist req.allergies req.dietary_style)
    (make_fallback target req adjusted
      (build_blocklist req.allergies req.dietary_style))
    (fun d hd m hm => hsafe d hd m hm)
  have step : validate_plan_safety
      (.jarr ((make_fallback target req adjusted
        (build_blocklist req.allergies req.dietary_style)).map DayPlan.toJson))
      (build_blocklist req.allergies req.dietary_style) =
      (validateDays (build_blocklist req.allergies req.dietary_style)
        ((make_fallback target req adjusted
          (build_blocklist req.allergies req.dietary_style)).map DayPlan.toJson)).bind
        (fun violations =>
          Except.ok { safe := violations.length == 0, violations := violations }) := rfl
  rw [step, hdays]
  rfl


lemma contains_iff_mem {l : List String} {x : String} : l.contains x = true ↔ x ∈ l := by
  induction l with
  | nil => simp [List.contains]
  | cons y ys ih =>
      simp only [List.contains_cons, Bool.or_eq_true, beq_iff_eq, List.mem_cons, ih]

/- ─── LEMMAS: NON-REPETITION (C7) ─── -/

/-- Names occupying meal slot `k` across a plan's days. -/
def slotNames (p : List DayPlan) (k : ℕ) : List String :=
  p.map (fun d => (d.meals.getD k emptyMeal).name)

lemma slotNames_cons (d : DayPlan) (p : List DayPlan) (k : ℕ) :
    slotNames (d :: p) k = (d.meals.getD k emptyMeal).name :: slotNames p k := rfl

lemma pickWith_blocked {gen : ℕ → Meal} {tries i : ℕ} {hist : List String}
    (h : (pickWith gen tries i hist).name ∈ last2 hist) :
    ∀ a, a < tries → (gen ((i + a) % 7)).name ∈ last2 hist := by
  intro a ha
  unfold pickWith at h
  rcases hf : (List.range tries).find?
      (fun a => !((last2 hist).contains (gen ((i + a) % 7)).name)) with _ | b
  · rw [List.find?_eq_none] at hf
    have hfa := hf a (List.mem_range.mpr ha)
    simp only [Bool.not_eq_true', Bool.not_eq_false] at hfa
    exact contains_iff_mem.mp hfa
  · rw [hf] at h
    have hb := List.find?_some hf
    simp only [Bool.not_eq_true'] at hb
    rw [contains_iff_mem.mpr h] at hb
    exact absurd hb (by decide)

set_option maxRecDepth 100000 in
lemma fb_build_day_meals (ctx : FbCtx) :
    ∀ (ds : List String) (i : ℕ) (bh lh dh : List String) (j : ℕ), j < ds.length →
      ((fb_build ctx i ds bh lh dh).getD j emptyDay).meals =
        [pickWith (fb_bfast ctx) 5 (i + j)
           (bh ++ (slotNames (fb_build ctx i ds bh lh dh) 0).take j),
         fb_snack ctx (((i + j) * 2) % (fb_snacks ctx).length) "Mid-Morning",
         pickWith (fb_lunch ctx) 7 (i + j)
           (lh ++ (slotNames (fb_build ctx i ds bh lh dh) 2).take j),
         fb_snack ctx (((i + j) * 2 + 1) % (fb_snacks ctx).length) "Evening",
         pickWith (fb_dinner ctx) 7 (i + j)
           (dh ++ (slotNames (fb_build ctx i ds bh lh dh) 4).take j)] := by
  intro ds
  induction ds with
  | nil => intro i bh lh dh j hj; exact absurd hj (by simp)
  | cons day rest ih =>
      intro i bh lh dh j hj
      match j with
      | 0 =>
          rw [fb_build]
          simp only [slotNames, List.take_zero, List.append_nil, Nat.add_zero,
            List.getD_cons_zero]
      | Nat.succ j' =>
          have hj' : j' < rest.length := by simpa using hj
          rw [fb_build]
          try dsimp only
          rw [List.getD_cons_succ]
          generalize pickWith (fb_bfast ctx) 5 i bh = bm
          generalize fb_snack ctx ((i * 2) % (fb_snacks ctx).length) "Mid-Morning" = s1
          generalize pickWith (fb_lunch ctx) 7 i lh = lm
          generalize fb_snack ctx ((i * 2 + 1) % (fb_snacks ctx).length) "Evening" = s2
          generalize pickWith (fb_dinner ctx) 7 i dh = dm
          rw [ih (i + 1) _ _ _ j' hj']
          have hidx : i + 1 + j' = i + (j' + 1) := by omega
          rw [hidx]
          simp only [slotNames_cons]
          simp only [List.getD_cons_zero, List.getD_cons_succ,
            List.take_succ_cons, List.append_assoc, List.singleton_append]

/-- C7 (counterexample): with proteins `["Chicken"]`, no dietary style, no
allergies and no cuisines, the fallback plan serves the same lunch —
"Grilled chicken & brown rice bowl" — on Monday and Tuesday, two consecutive
days, refuting unconditional non-repetition. -/
theorem C7_counterexample :
    (make_fallback 2000
        { age := 30, gender := "male", height_cm := ⟨175, 1⟩, weight_kg := ⟨70, 1⟩,
          goal := "Maintain Weight", activity := "moderate", proteins := ["Chicken"] }
        ["Chicken"] []).map DayPlan.day = weekDays ∧
    (slotNames (make_fallback 2000
        { age := 30, gender := "male", height_cm := ⟨175, 1⟩, weight_kg := ⟨70, 1⟩,
          goal := "Maintain Weight", activity := "moderate", proteins := ["Chicken"] }
        ["Chicken"] []) 2).getD 0 "" = "Grilled chicken & brown rice bowl" ∧
    (slotNames (make_fallback 2000
        { age := 30, gender := "male", height_cm := ⟨175, 1⟩, weight_kg := ⟨70, 1⟩,
          goal := "Maintain Weight", activity := "moderate", proteins := ["Chicken"] }
        ["Chicken"] []) 2).getD 1 "" = "Grilled chicken & brown rice bowl" := by
  refine ⟨?_, ?_, ?_⟩ <;> decide

/-- C7 (amended): in every fallback plan, for breakfast, lunch and dinner
independently, a day's meal name can repeat one of the previous two days'
names in that slot only when every candidate offered by the bounded retry
search (5 alternate day-index offsets for breakfast, 7 for lunch and dinner)
already repeats one of the previous two names; whenever some retry candidate
avoids them, the chosen meal avoids them. -/
theorem C7_bounded_nonrepetition (target : ℤ) (req : PlanRequest)
    (adjusted blocklist : List String) (j : ℕ) (hj : j + 1 < 7) :
    (((slotNames (make_fallback target req adjusted blocklist) 0).getD (j+1) "") ∈
        last2 ((slotNames (make_fallback target req adjusted blocklist) 0).take (j+1)) →
      ∀ a, a < 5 → (fb_bfast (mkCtx target req adjusted blocklist) ((j+1+a) % 7)).name ∈
        last2 ((slotNames (make_fallback target req adjusted blocklist) 0).take (j+1))) ∧
    (((slotNames (make_fallback target req adjusted blocklist) 2).getD (j+1) "") ∈
        last2 ((slotNames (make_fallback target req adjusted blocklist) 2).take (j+1)) →
      ∀ a, a < 7 → (fb_lunch (mkCtx target req adjusted blocklist) ((j+1+a) % 7)).name ∈
        last2 ((slotNames (make_fallback target req adjusted blocklist) 2).take (j+1))) ∧
    (((slotNames (make_fallback target req adjusted blocklist) 4).getD (j+1) "") ∈
        last2 ((slotNames (make_fallback target req adjusted blocklist) 4).take (j+1)) →
      ∀ a, a < 7 → (fb_dinner (mkCtx target req adjusted blocklist) ((j+1+a) % 7)).name ∈
        last2 ((slotNames (make_fallback target req adjusted blocklist) 4).take (j+1))) := by
  have hj7 : j + 1 < weekDays.length := by
    simp only [weekDays, List.length_cons, List.length_nil]
    omega
  have hmeals := fb_build_day_meals (mkCtx target req adjusted blocklist)
    weekDays 0 [] [] [] (j+1) hj7
  have hlen : (make_fallback target req adjusted blocklist).length = 7 := by
    have := congrArg List.length
      (fb_build_struct (mkCtx target req adjusted blocklist) weekDays 0 [] [] []).1
    simpa [make_fallback] using this
  have hjp : j + 1 < (make_fallback target req adjusted blocklist).length := by
    rw [hlen]; omega
  have hget : ∀ k, (slotNames (make_fallback target req adjusted blocklist) k).getD
      (j+1) "" = (((make_fallback target req adjusted blocklist).getD
        (j+1) emptyDay).meals.getD k emptyMeal).name := by
    intro k
    unfold slotNames
    rw [List.getD_eq_getElem?_getD, List.getElem?_map,
      List.getElem?_eq_getElem hjp]
    simp [List.getD_eq_getElem?_getD, List.getElem?_eq_getElem hjp]
  refine ⟨?_, ?_, ?_⟩
  · intro hrep a ha
    rw [hget 0] at hrep
    rw [show ((make_fallback target req adjusted blocklist).getD (j+1) emptyDay).meals =
      _ from hmeals] at hrep
    simp only [List.getD_cons_zero, Nat.zero_add, List.nil_append] at hrep
    have := pickWith_blocked hrep a ha
    simpa [make_fallback] using this
  · intro hrep a ha
    rw [hget 2] at hrep
    rw [show ((make_fallback target req adjusted blocklist).getD (j+1) emptyDay).meals =
      _ from hmeals] at hrep
    simp only [List.getD_cons_succ, List.getD_cons_zero, Nat.zero_add,
      List.nil_append] at hrep
    have := pickWith_blocked hrep a ha
    simpa [make_fallback] using this
  · intro hrep a ha
    rw [hget 4] at hrep
    rw [show ((make_fallback target req adjusted blocklist).getD (j+1) emptyDay).meals =
      _ from hmeals] at hrep
    simp only [List.getD_cons_succ, List.getD_cons_zero, Nat.zero_add,
      List.nil_append] at hrep
    have := pickWith_blocked hrep a ha
    simpa [make_fallback] using this

/-- C7 witness: on the counterexample profile the hypothesis of the lunch
conjunct holds on day 1 (Tuesday repeats Monday), so every retry candidate is
blocked; instantiated at offset 0. -/
theorem C7_bounded_nonrepetition_witness :
    (fb_lunch (mkCtx 2000
        { age := 30, gender := "male", height_cm := ⟨175, 1⟩, weight_kg := ⟨70, 1⟩,
          goal := "Maintain Weight", activity := "moderate", proteins := ["Chicken"] }
        ["Chicken"] []) ((0+1+0) % 7)).name ∈
      last2 ((slotNames (make_fallback 2000
        { age := 30, gender := "male", height_cm := ⟨175, 1⟩, weight_kg := ⟨70, 1⟩,
          goal := "Maintain Weight", activity := "moderate", proteins := ["Chicken"] }
        ["Chicken"] []) 2).take (0+1)) :=
  ((C7_bounded_nonrepetition 2000
      { age := 30, gender := "male", height_cm := ⟨175, 1⟩, weight_kg := ⟨70, 1⟩,
        goal := "Maintain Weight", activity := "moderate", proteins := ["Chicken"] }
      ["Chicken"] [] 0 (by decide)).2.1 (by decide)) 0 (by decide)

lemma style_phase_sublist (s : String) (ps : List String) :
    (style_phase s ps).1.Sublist ps := by
  unfold style_phase
  split
  · exact List.filter_sublist ps
  · split
    · exact List.filter_sublist ps
    · split
      · exact List.filter_sublist ps
      · exact List.Sublist.refl ps

lemma filter_not_of_filter_nil {p : String → Bool} {l : List String}
    (h : l.filter p = []) : l.filter (fun x => !p x) = l := by
  rw [List.filter_eq_self]
  intro x hx
  have hnp := List.filter_eq_nil_iff.mp h x hx
  simp only [Bool.not_eq_true] at hnp
  simp [hnp]

lemma filter_nil_of_filter_not {p : String → Bool} {l : List String}
    (h : l.filter (fun x => !p x) = l) : l.filter p = [] := by
  have hall := List.filter_eq_self.mp h
  rw [List.filter_eq_nil_iff]
  intro x hx
  have := hall x hx
  simp only [Bool.not_eq_true'] at this
  simp [this]

lemma ite_nil_isEmpty {c : Prop} [Decidable c] {msg : String}
    (h : (if c then ([] : List String) else [msg]) = []) : c := by
  by_cases hc : c
  · exact hc
  · rw [if_neg hc] at h
    exact absurd h (by simp)

lemma style_phase_nowarn {s : String} {ps : List String}
    (h : (style_phase s ps).2 = []) : (style_phase s ps).1 = ps := by
  unfold style_phase at h ⊢
  by_cases h1 : substrB "vegan" s = true
  · simp only [if_pos h1] at h ⊢
    exact filter_not_of_filter_nil (List.isEmpty_iff.mp (ite_nil_isEmpty h))
  · simp only [if_neg h1] at h ⊢
    by_cases h2 : (s == "vegetarian") = true
    · simp only [if_pos h2] at h ⊢
      exact filter_not_of_filter_nil (List.isEmpty_iff.mp (ite_nil_isEmpty h))
    · simp only [if_neg h2] at h ⊢
      by_cases h3 : substrB "pescatarian" s = true
      · simp only [if_pos h3] at h ⊢
        exact filter_not_of_filter_nil (List.isEmpty_iff.mp (ite_nil_isEmpty h))
      · simp only [if_neg h3]

lemma style_phase_eq_self {s : String} {ps : List String}
    (h : (style_phase s ps).1 = ps) : (style_phase s ps).2 = [] := by
  unfold style_phase at h ⊢
  by_cases h1 : substrB "vegan" s = true
  · simp only [if_pos h1] at h ⊢
    rw [if_pos (show (ps.filter (fun p => vegan_exc.contains (pyLower p))).isEmpty = true
      by rw [filter_nil_of_filter_not h]; rfl)]
  · simp only [if_neg h1] at h ⊢
    by_cases h2 : (s == "vegetarian") = true
    · simp only [if_pos h2] at h ⊢
      rw [if_pos (show (ps.filter (fun p => animal_p.contains (pyLower p))).isEmpty = true
        by rw [filter_nil_of_filter_not h]; rfl)]
    · simp only [if_neg h2] at h ⊢
      by_cases h3 : substrB "pescatarian" s = true
      · simp only [if_pos h3] at h ⊢
        rw [if_pos (show (ps.filter (fun p => land_meats.contains (pyLower p))).isEmpty = true
          by rw [filter_nil_of_filter_not h]; rfl)]
      · simp only [if_neg h3]

/-- C5: after the dietary-style filter, every surviving protein whose name
contains a derivative term of a declared allergy is removed from the result;
the returned protein list is a subset of the input selection; warnings are
empty exactly when nothing was removed by either the style filter or the
allergy cross-check. -/
theorem C5_protein_resolver (req : PlanRequest) :
    (∀ p ∈ (style_phase (pyLower req.dietary_style) req.proteins).1,
        allergy_conflict req.allergies p = true →
        p ∉ (enforce_dietary_protein_consistency req).proteins) ∧
    (∀ p ∈ (enforce_dietary_protein_consistency req).proteins, p ∈ req.proteins) ∧
    ((enforce_dietary_protein_consistency req).warnings = [] ↔
      (enforce_dietary_protein_consistency req).proteins = req.proteins) := by
  unfold enforce_dietary_protein_consistency
  dsimp only
  refine ⟨?_, ?_, ?_, ?_⟩
  · intro p hp hconf hmem
    have h2 : (!(resolver_conflicts req).contains p) = true :=
      (List.mem_filter.mp hmem).2
    have : (resolver_conflicts req).contains p = true :=
      contains_iff_mem.mpr (List.mem_filter.mpr ⟨hp, hconf⟩)
    rw [this] at h2
    simp at h2
  · intro p hp
    exact (style_phase_sublist _ _).mem (List.mem_of_mem_filter hp)
  · intro hw
    have h2 := List.append_eq_nil.mp hw
    have hcn : resolver_conflicts req = [] :=
      List.isEmpty_iff.mp (ite_nil_isEmpty h2.2)
    have hpr1 : (style_phase (pyLower req.dietary_style) req.proteins).1 = req.proteins :=
      style_phase_nowarn h2.1
    rw [List.filter_eq_self.mpr (fun a _ => by simp [hcn]), hpr1]
  · intro hp
    have hsub2 : ((style_phase (pyLower req.dietary_style) req.proteins).1.filter
        (fun p => !(resolver_conflicts req).contains p)).Sublist
        (style_phase (pyLower req.dietary_style) req.proteins).1 :=
      List.filter_sublist _
    have hsub1 : (style_phase (pyLower req.dietary_style) req.proteins).1.Sublist
        req.proteins := style_phase_sublist _ _
    have hlen : req.proteins.length ≤
        (style_phase (pyLower req.dietary_style) req.proteins).1.length := by
      calc req.proteins.length
          = ((style_phase (pyLower req.dietary_style) req.proteins).1.filter
              (fun p => !(resolver_conflicts req).contains p)).length := by rw [hp]
        _ ≤ _ := hsub2.length_le
    have hpr1 : (style_phase (pyLower req.dietary_style) req.proteins).1 = req.proteins :=
      hsub1.eq_of_length (le_antisymm hsub1.length_le hlen)
    have hfix : (style_phase (pyLower req.dietary_style) req.proteins).1.filter
        (fun p => !(resolver_conflicts req).contains p) =
        (style_phase (pyLower req.dietary_style) req.proteins).1 := by
      rw [hp, hpr1]
    have hcn : resolver_conflicts req = [] := by
      rw [List.eq_nil_iff_forall_not_mem]
      intro x hx
      have hx1 : x ∈ (style_phase (pyLower req.dietary_style) req.proteins).1 :=
        List.mem_of_mem_filter hx
      have h5 : (!(resolver_conflicts req).contains x) = true :=
        List.filter_eq_self.mp hfix x hx1
      rw [contains_iff_mem.mpr hx] at h5
      simp at h5
    rw [style_phase_eq_self hpr1, hcn]
    simp

/-- C5 witness: vegan style with proteins Chicken/Tofu/Eggs and a soy allergy —
the surviving "Tofu" conflicts with the soy derivative terms and is removed. -/
theorem C5_protein_resolver_witness :
    "Tofu" ∉ (enforce_dietary_protein_consistency
      { age := 30, gender := "f", height_cm := ⟨160, 1⟩, weight_kg := ⟨55, 1⟩,
        goal := "Maintain Weight", activity := "moderate", dietary_style := "Vegan",
        proteins := ["Chicken", "Tofu", "Eggs"], allergies := ["Soy"] }).proteins :=
  (C5_protein_resolver _).1 "Tofu" (by decide) (by decide)

/- ─── C2 ─── -/

/-- The plan request of the spec's shellfish scenario. -/
def shellfishReq : PlanRequest :=
  { age := 30, gender := "male", height_cm := ⟨175, 1⟩, weight_kg := ⟨70, 1⟩,
    goal := "Weight Loss", activity := "moderate", allergies := ["Shellfish"] }

/-- An externally generated plan containing the ingredient "shrimp". -/
def shrimpPlanJson : JValue :=
  .jobj [("plan", .jarr [.jobj [("day", .jstr "Monday"),
    ("meals", .jarr [.jobj [("name", .jstr "Shrimp curry"),
      ("ingredients", .jarr [.jobj [("name", .jstr "shrimp")]])]])]])]

/-- C2 (evaluating the code at the failing input): when the parsed external
plan contains "shrimp" while allergies=["Shellfish"], the orchestrator
replaces the day plans with the fallback and notes "safe fallback applied" in
the SafetyCheck — but the returned used-external-source flag (`used_ai`)
remains `true`, because it is set right after the parse and never reset on
the fallback substitution.  The spec requires `used_external_source=False`
here. -/
theorem C2_used_ai_stays_true :
    getKey (generate_plan (.output (.ok shrimpPlanJson)) shellfishReq) "used_ai" =
      some (.jbool true) ∧
    getKey (generate_plan (.output (.ok shrimpPlanJson)) shellfishReq) "plan" =
      some (.jarr ((make_fallback (gp_tc shellfishReq) shellfishReq
        (gp_adjusted shellfishReq) (gp_blocklist shellfishReq)).map DayPlan.toJson)) ∧
    (getKey (generate_plan (.output (.ok shrimpPlanJson)) shellfishReq)
        "safety_check").bind (fun sc => (pyGet sc "notes" .jnull).toOption) =
      some (.jstr "AI plan had allergen hits — safe fallback applied.") := by
  refine ⟨?_, ?_, ?_⟩ <;> rfl

/- ─── C8 ─── -/

/-- C8 (counterexample): a parsed external structure that is *missing the
required day-plan list* — the valid JSON object `{}` — is NOT replaced by the
fallback plan: validation runs over the empty default and reports safe, the
response is returned without any "plan" key (so with no fallback day plans),
with `used_ai=true` and a "verified safe" note. -/
theorem C8_counterexample :
    getKey (generate_plan (.output (.ok (.jobj []))) shellfishReq) "plan" =
      some .jnull ∧
    getKey (generate_plan (.output (.ok (.jobj []))) shellfishReq) "used_ai" =
      some (.jbool true) ∧
    (getKey (generate_plan (.output (.ok (.jobj []))) shellfishReq)
        "safety_check").bind (fun sc => (pyGet sc "notes" .jnull).toOption) =
      some (.jstr ("All 7 days verified safe. " ++
        toString (gp_blocklist shellfishReq).length ++ " terms blocked.")) := by
  refine ⟨?_, ?_, ?_⟩ <;> rfl

/-- C8 (amended): when the external output fails JSON parsing after
code-fence stripping (and likewise when the channel is unconfigured or the
call raises), `generate_plan` recovers locally, returning the deterministic
fallback plan with `used_ai=false` and surfacing no error; a parsed structure
missing the day-plan list, in contrast, is treated as vacuously safe and
returned as-is. -/
theorem C8_parse_failure_falls_back (req : PlanRequest) :
    getKey (generate_plan (.output (.error ())) req) "plan" =
      some (.jarr ((make_fallback (gp_tc req) req (gp_adjusted req)
        (gp_blocklist req)).map DayPlan.toJson)) ∧
    getKey (generate_plan (.output (.error ())) req) "used_ai" =
      some (.jbool false) ∧
    getKey (generate_plan .noKey req) "plan" =
      some (.jarr ((make_fallback (gp_tc req) req (gp_adjusted req)
        (gp_blocklist req)).map DayPlan.toJson)) ∧
    getKey (generate_plan .callError req) "plan" =
      some (.jarr ((make_fallback (gp_tc req) req (gp_adjusted req)
        (gp_blocklist req)).map DayPlan.toJson)) := by
  refine ⟨?_, ?_, ?_, ?_⟩ <;> rfl

end NutriSync
